import Mathlib

/-!
Verification development for the weather-display repository (`src/main.py`,
`src/config.py`).

The Python source is shallowly embedded below.  Timestamps in the source are
POSIX seconds (Python floats); every use of time in the logic under scrutiny
is a subtraction followed by an order comparison, so timestamps and durations
are modelled as integers (`ℤ`).  Python strings are Lean `String`s, Python's
`None`-able values are `Option`s, and the handful of mutable module globals
threaded through `main`'s frame loop are collected into an explicit
`LoopState` record that each tick transforms.
-/

namespace WeatherDisplay

/-! ## String helpers mirroring Python primitives -/

/-- Test whether `n` is an initial segment of `h`
(character-list version of a prefix test, used for substring search). -/
def listIsPre : List Char → List Char → Bool
  | [], _ => true
  | _ :: _, [] => false
  | a :: as, b :: bs => a = b && listIsPre as bs

/-- Python's `needle in hay` substring test. -/
def strContains (hay needle : String) : Bool :=
  let h := hay.toList
  let n := needle.toList
  (List.range (h.length + 1)).any fun i => listIsPre n (h.drop i)

/-- Python's `s.split('-')`: split on every `'-'`, keeping empty pieces
(`"".split('-') == ['']`, `"a--b".split('-') == ['a','','b']`). -/
def splitDash : List Char → List (List Char)
  | [] => [[]]
  | c :: rest =>
    let r := splitDash rest
    if c = '-' then [] :: r
    else
      match r with
      | h :: t => (c :: h) :: t
      | [] => [[c]]

/-- Value of a decimal digit character, `none` for non-digits. -/
def digitVal (c : Char) : Option ℕ :=
  if c.isDigit then some (c.toNat - '0'.toNat) else none

/-- Parse a non-empty run of decimal digits. -/
def parseDigits (l : List Char) : Option ℕ :=
  match l with
  | [] => none
  | _ :: _ => l.foldlM (fun acc c => (digitVal c).map fun d => acc * 10 + d) 0

/-- Python's `int(s)` restricted to ASCII: optional surrounding whitespace,
optional sign, then decimal digits; `none` models `ValueError`. -/
def pyInt (s : String) : Option ℤ :=
  let l := ((s.toList.dropWhile Char.isWhitespace).reverse.dropWhile
      Char.isWhitespace).reverse
  match l with
  | '-' :: rest => (parseDigits rest).map fun n => -(n : ℤ)
  | '+' :: rest => (parseDigits rest).map fun n => (n : ℤ)
  | _ => (parseDigits l).map fun n => (n : ℤ)

/-! ## Operating hours (`is_within_operating_hours`, main.py lines 256-267)

The Python body runs `start_hour, end_hour = map(int, s.split('-'))` inside a
`try:`; any failure (wrong number of '-'-separated pieces, or a piece that is
not an integer) lands in the bare `except:` which returns `True`. -/

/-- The parse inside the `try:` block: exactly two `'-'`-separated pieces,
each a Python integer. -/
def parseOperatingHours (s : String) : Option (ℤ × ℤ) :=
  match splitDash s.toList with
  | [a, b] =>
    match pyInt (String.mk a), pyInt (String.mk b) with
    | some start_hour, some end_hour => some (start_hour, end_hour)
    | _, _ => none
  | _ => none

/-- The function `is_within_operating_hours` from main.py; `nowHour` is
`now.hour`. -/
def is_within_operating_hours (operating_hours_str : String) (nowHour : ℤ) :
    Bool :=
  match parseOperatingHours operating_hours_str with
  | some (start_hour, end_hour) =>
    if start_hour ≤ end_hour then
      decide (start_hour ≤ nowHour ∧ nowHour < end_hour)
    else
      decide (nowHour ≥ start_hour ∨ nowHour < end_hour)
  | none => true

/-! ## Text raster cache (`cachedBitmapText`, main.py lines 116-130)

The cache key is the *concatenation* `text + ''.join(font.getname())`; the
cached value is the rendered `(txt_width, txt_height, bitmap)` triple.  A font
is modelled by its name tuple together with its rasterization function (what
`font.getbbox` plus the `ImageDraw.text` pre-render produce for a string). -/

/-- A monochrome bitmap, as rows of pixels. -/
abbrev Bitmap := List (List Bool)

/-- The `(txt_width, txt_height, bitmap)` triple stored per cache key. -/
abbrev RasterEntry := ℕ × ℕ × Bitmap

/-- A font: `name` models `font.getname()` (a tuple of strings), `raster`
models direct rasterization of a string in this font. -/
structure FontM where
  name : List String
  raster : String → RasterEntry

/-- The `bitmapRenderCache` dict, most recent insertion first. -/
abbrev RasterCache := List (String × RasterEntry)

/-- Python dict lookup (`key in bitmapRenderCache` / `bitmapRenderCache[key]`). -/
def cacheLookup : RasterCache → String → Option RasterEntry
  | [], _ => none
  | (k, e) :: rest, key => if k = key then some e else cacheLookup rest key

/-- The cache key `text + fontKey` with `fontKey = ''.join(nameTuple)`. -/
def rasterKey (text : String) (font : FontM) : String :=
  text ++ String.join font.name

/-- The function `cachedBitmapText` from main.py: return the cached entry for
`text + ''.join(font.getname())` if present, otherwise rasterize, insert, and
return.  The second component is the cache after the call. -/
def cachedBitmapText (cache : RasterCache) (text : String) (font : FontM) :
    RasterEntry × RasterCache :=
  let key := rasterKey text font
  match cacheLookup cache key with
  | some pre => (pre, cache)
  | none =>
    let r := font.raster text
    (r, (key, r) :: cache)

/-! ## Layout fitter (`get_display_date_str`, main.py lines 386-412)

The source builds three candidate date formats, initializes the result to the
last one, then scans in order and `break`s at the first candidate whose
`available_gap = (device.width - date_width) - MAX_CLOCK_WIDTH` is at least
`icon_space_needed`.  We embed the scan generically over the candidate list
and the width oracle (`cachedBitmapText`'s width for the date font); widths
enter the gap arithmetic as Python ints, so the gap lives in `ℤ`. -/

/-- The acceptance test for one candidate:
`(device.width - width(c)) - MAX_CLOCK_WIDTH >= icon_space_needed`. -/
def date_fits (widthOf : String → ℕ) (deviceWidth maxClockWidth
    icon_space_needed : ℤ) (c : String) : Bool :=
  decide (deviceWidth - (widthOf c : ℤ) - maxClockWidth ≥ icon_space_needed)

/-- The candidate scan of `get_display_date_str`: first candidate that fits,
otherwise the last candidate (`date_formats[-1]`); `none` only for an empty
candidate list (the source's list always has three entries). -/
def get_display_date_str (widthOf : String → ℕ) (deviceWidth maxClockWidth
    icon_space_needed : ℤ) (date_formats : List String) : Option String :=
  match date_formats.getLast? with
  | none => none
  | some fallback =>
    some
      (match date_formats.find?
          (date_fits widthOf deviceWidth maxClockWidth icon_space_needed) with
      | some c => c
      | none => fallback)

/-! ## Startup credential guard (main.py lines 488-494)

`main` begins: if `API_KEY` is `'key_not_set'` or falsy (empty), it prints an
error, draws a static "API Key Not Set!" frame, `time.sleep(1800)`, and
`return`s — the process then exits; the refresh path is never entered.  We
embed this branch as the sequence of externally visible actions it performs. -/

/-- Externally visible actions of the startup guard branch. -/
inductive MainAction where
  | renderStatic (msg : String)
  | sleepSeconds (n : ℕ)
  | returnFromMain
  | refreshFetch
deriving DecidableEq, Repr

/-- Result of the credential check at the top of `main`. -/
inductive StartupResult where
  | haltSequence (acts : List MainAction)
  | proceedToLoop
deriving DecidableEq, Repr

/-- The credential guard: `config.get('API_KEY') == 'key_not_set' or not
config.get('API_KEY')` selects the halt branch (render the static message,
sleep 1800 seconds, return from `main`); otherwise `main` proceeds to the
frame loop. -/
def mainStartup (apiKey : String) : StartupResult :=
  if apiKey = "key_not_set" ∨ apiKey = "" then
    .haltSequence
      [.renderStatic "API Key Not Set!", .sleepSeconds 1800, .returnFromMain]
  else
    .proceedToLoop

/-! ## The frame loop tick (main.py lines 515-604)

One pass of the `while True:` body (inside `with regulator:`), for a tick on
which the display is active.  All `time.time()` / `get_current_timestamp()`
calls within one tick are modelled by the single tick timestamp `now`
(timestamps are integers, see the header).  Network fetch results are oracle
inputs to the tick; the tick reports how many network fetch operations it
performed.  `transition_state` is kept exactly as in the source: `none`
(Python `None`), `some "out"`, or `some "in"`. -/

/-- Configuration fields read by the loop body, plus the raster-cache width
and height of the tip text (`cachedBitmapText(ai_tip_cache, font_small)`),
abstracted as functions of the tip string. -/
structure Config where
  UPDATE_INTERVAL_SECONDS : ℤ
  DISPLAY_DURATION : ℤ
  SCROLL_PAUSE_SECONDS : ℤ
  SCROLL_OFF_SCREEN_WAIT_SECONDS : ℤ
  TRANSITION_DURATION_SECONDS : ℤ
  TRANSITION_EFFECT : String
  tipWidth : String → ℕ
  tipHeight : String → ℕ

/-- The mutable globals of main.py that the loop body reads or writes.
Weather, forecast and background values are opaque payloads (strings);
`hasElevated` is `0`/`1` as in the source. -/
structure LoopState where
  last_update_time : ℤ
  weather_data_cache : Option String
  forecast_data_cache : Option String
  current_weather_bg : Option String
  forecast_bg : Option String
  ai_tip_cache : String
  pixelsUp : ℕ
  hasElevated : ℕ
  scroll_x : ℕ
  animation_pause_timer : ℤ
  scroll_completion_event_fired : Bool
  transition_state : Option String
  transition_start_time : ℤ
  is_showing_forecast : Bool
  scroll_off_event_time : ℤ
  last_view_switch_time : ℤ
deriving DecidableEq, Repr

/-- Tick inputs: the timestamp and the oracle results the network would
return if the tick performs its fetches. -/
structure TickInput where
  now : ℤ
  weather_fetch : Option String
  forecast_fetch : Option String
  tip_fetch : String
deriving DecidableEq, Repr

/-- Which precomposed view background a frame selects
(`forecast_bg if is_showing_forecast else current_weather_bg`). -/
inductive ViewKind where
  | forecastView
  | currentView
deriving DecidableEq, Repr

/-- What one tick produced: the new state, the number of network fetch
operations performed, every assignment made to `transition_state` as a
`(previous, new)` move, and which view's background the frame drawn this
tick (if any) selected. -/
structure TickOutput where
  state : LoopState
  networkCalls : ℕ
  moves : List (Option String × Option String)
  bgDrawn : Option ViewKind
deriving DecidableEq, Repr

/-- The tip acceptance test (main.py line 530):
`new_tip and new_tip != ai_tip_cache and "unavailable" not in new_tip`. -/
def tipAccepted (current_tip new_tip : String) : Bool :=
  !(new_tip = "") && !(new_tip = current_tip) &&
    !(strContains new_tip "unavailable")

/-- Lines 530-532: adopt an accepted tip and reset the marquee, otherwise
keep the current tip. -/
def acceptTip (new_tip : String) (s : LoopState) : LoopState :=
  if tipAccepted s.ai_tip_cache new_tip then
    { s with
      ai_tip_cache := new_tip
      pixelsUp := 0
      hasElevated := 0
      scroll_x := 0
      scroll_completion_event_fired := false }
  else s

/-- Lines 527-538, the weather-success body: `get_weather` stamped
`last_update_time` with the current timestamp, the weather cache is
replaced, the freshly fetched tip is offered to `acceptTip`, and the current
weather background is re-rendered from the new data. -/
def weatherSuccess (inp : TickInput) (weather_data : String) (s : LoopState) :
    LoopState :=
  let sA := { s with
    last_update_time := inp.now
    weather_data_cache := some weather_data }
  let sB := acceptTip inp.tip_fetch sA
  { sB with current_weather_bg := some weather_data }

/-- The refresh block (main.py lines 525-543).  When the staleness test
`now - last_update_time > UPDATE_INTERVAL_SECONDS` passes, `get_weather()`
and `get_forecast()` are both called; on weather success the weather-success
body runs; on forecast success the forecast cache and background are
replaced.  Returns the new state and the number of network fetch operations
performed (the due path also fetches icons while rendering backgrounds; we
count the three top-level fetches). -/
def refreshStep (cfg : Config) (inp : TickInput) (s : LoopState) :
    LoopState × ℕ :=
  if inp.now - s.last_update_time > cfg.UPDATE_INTERVAL_SECONDS then
    let s1 :=
      match inp.weather_fetch with
      | some weather_data => weatherSuccess inp weather_data s
      | none => s
    let s2 :=
      match inp.forecast_fetch with
      | some forecast_data =>
        { s1 with
          forecast_data_cache := some forecast_data
          forecast_bg := some forecast_data }
      | none => s1
    (s2, 2 + (if inp.weather_fetch.isSome then 1 else 0))
  else (s, 0)

/-- Line 549: when the marquee has finished scrolling and no off-screen
timestamp is recorded yet, record one. -/
def scrollOffStamp (inp : TickInput) (s : LoopState) : LoopState :=
  if s.scroll_completion_event_fired ∧ s.scroll_off_event_time = 0 then
    { s with scroll_off_event_time := inp.now }
  else s

/-- The transition trigger block (main.py lines 545-552): enter the Out phase
either after a fixed display duration, or (duration zero) once the marquee
has been fully scrolled off for the configured wait. -/
def triggerStep (cfg : Config) (inp : TickInput) (s : LoopState) :
    LoopState × List (Option String × Option String) :=
  if cfg.DISPLAY_DURATION > 0 ∧
      inp.now - s.last_view_switch_time > cfg.DISPLAY_DURATION ∧
      s.transition_state = none then
    ({ s with
        transition_state := some "out"
        transition_start_time := inp.now
        last_view_switch_time := inp.now },
      [(none, some "out")])
  else if cfg.DISPLAY_DURATION = 0 then
    let s' := scrollOffStamp inp s
    if s'.scroll_off_event_time ≠ 0 ∧
        inp.now - s'.scroll_off_event_time >
          cfg.SCROLL_OFF_SCREEN_WAIT_SECONDS ∧
        s'.transition_state = none then
      ({ s' with
          transition_state := some "out"
          transition_start_time := inp.now
          scroll_off_event_time := 0
          scroll_completion_event_fired := false },
        [(none, some "out")])
    else (s', [])
  else (s, [])

/-- The marquee advance inside `draw_frame_content` (main.py lines 454-476)
runs only on non-transition frames and only when the tip is non-empty; it is
split here into its two sequential blocks.  Lines 464-468: rise one pixel per
frame to the tip height, then mark elevation and start the pause timer. -/
def marqueeRise (tip_height : ℕ) (inp : TickInput) (s : LoopState) :
    LoopState :=
  if s.pixelsUp < tip_height then { s with pixelsUp := s.pixelsUp + 1 }
  else if s.hasElevated = 0 then
    { s with hasElevated := 1, animation_pause_timer := inp.now }
  else s

/-- Lines 470-472: once elevated and past the pause, scroll one pixel and
fire the completion event one past the tip width. -/
def marqueeScroll (cfg : Config) (tip_width : ℕ) (inp : TickInput)
    (s : LoopState) : LoopState :=
  if s.hasElevated ≠ 0 ∧
      inp.now - s.animation_pause_timer > cfg.SCROLL_PAUSE_SECONDS ∧
      s.scroll_completion_event_fired = false then
    let s2 := { s with scroll_x := s.scroll_x + 1 }
    if s2.scroll_x > tip_width then
      { s2 with scroll_completion_event_fired := true }
    else s2
  else s

/-- The full marquee advance, gated on a non-empty tip. -/
def marqueeAdvance (cfg : Config) (inp : TickInput) (s : LoopState) :
    LoopState :=
  if s.ai_tip_cache ≠ "" then
    marqueeScroll cfg (cfg.tipWidth s.ai_tip_cache) inp
      (marqueeRise (cfg.tipHeight s.ai_tip_cache) inp s)
  else s

/-- The selection `forecast_bg if is_showing_forecast else
current_weather_bg`, as the
identity of the selected view. -/
def viewOf (is_showing_forecast : Bool) : ViewKind :=
  if is_showing_forecast then .forecastView else .currentView

/-- The transition/render block (main.py lines 554-600).  With a transition
in flight: at `elapsed >= duration`, the Out phase flips
`is_showing_forecast`, resets the marquee, moves to In when the effect is
`'wipe'` or `'blink'` (else to Idle) and restamps `transition_start_time`,
while the In phase just returns to Idle — no frame is drawn on a boundary
tick.  Before the boundary a transition frame is drawn
(`is_transitioning=True`, so the marquee is frozen).  With no transition, a
steady frame is drawn and the marquee advances.

Line 561 first: the phase entered when the Out phase completes —
`'in' if config.get('TRANSITION_EFFECT') in ['wipe', 'blink'] else None`. -/
def nextPhase (cfg : Config) : Option String :=
  if cfg.TRANSITION_EFFECT = "wipe" ∨ cfg.TRANSITION_EFFECT = "blink" then
    some "in"
  else none

/-- The transition/render block continued: the dispatch of lines 554-600. -/
def transitionStep (cfg : Config) (inp : TickInput) (s : LoopState) :
    LoopState × List (Option String × Option String) × Option ViewKind :=
  match s.transition_state with
  | some phase =>
    let elapsed := inp.now - s.transition_start_time
    if elapsed ≥ cfg.TRANSITION_DURATION_SECONDS then
      if phase = "out" then
        let next := nextPhase cfg
        ({ s with
            is_showing_forecast := !s.is_showing_forecast
            pixelsUp := 0
            hasElevated := 0
            scroll_x := 0
            scroll_completion_event_fired := false
            transition_state := next
            transition_start_time := inp.now },
          [(some "out", next)], none)
      else
        ({ s with transition_state := none }, [(some phase, none)], none)
    else
      (s, [], some (viewOf s.is_showing_forecast))
  | none =>
    (marqueeAdvance cfg inp s, [], some (viewOf s.is_showing_forecast))

/-- One tick of the frame loop body: refresh check, transition trigger,
then transition boundary/frame or steady frame. -/
def tick (cfg : Config) (inp : TickInput) (s : LoopState) : TickOutput :=
  let rs := refreshStep cfg inp s
  let ts := triggerStep cfg inp rs.1
  let xs := transitionStep cfg inp ts.1
  { state := xs.1
    networkCalls := rs.2
    moves := ts.2 ++ xs.2.1
    bgDrawn := xs.2.2 }

/-! ## Shared predicates and concrete fixtures -/

/-- The four `RefreshState` fields of the spec's data model
(`last_success_timestamp`, `cached_weather`, `cached_forecast`,
`cached_tip`) agree between two loop states. -/
def sameRefreshFields (a b : LoopState) : Prop :=
  a.last_update_time = b.last_update_time ∧
  a.weather_data_cache = b.weather_data_cache ∧
  a.forecast_data_cache = b.forecast_data_cache ∧
  a.ai_tip_cache = b.ai_tip_cache

instance (a b : LoopState) : Decidable (sameRefreshFields a b) := by
  unfold sameRefreshFields; infer_instance

/-- A configuration with the source's defaults (transition duration taken as
one second so that times stay integral). -/
def cfg0 : Config where
  UPDATE_INTERVAL_SECONDS := 1800
  DISPLAY_DURATION := 10
  SCROLL_PAUSE_SECONDS := 2
  SCROLL_OFF_SCREEN_WAIT_SECONDS := 1
  TRANSITION_DURATION_SECONDS := 1
  TRANSITION_EFFECT := "wipe"
  tipWidth := fun _ => 50
  tipHeight := fun _ => 10

/-- A quiescent loop state used as the base of concrete scenarios. -/
def state0 : LoopState where
  last_update_time := 0
  weather_data_cache := none
  forecast_data_cache := none
  current_weather_bg := none
  forecast_bg := none
  ai_tip_cache := "tip"
  pixelsUp := 0
  hasElevated := 0
  scroll_x := 0
  animation_pause_timer := 0
  scroll_completion_event_fired := false
  transition_state := none
  transition_start_time := 0
  is_showing_forecast := false
  scroll_off_event_time := 0
  last_view_switch_time := 0

/-- A font whose name tuple joins to `"X"`. -/
def fontA : FontM where
  name := ["X"]
  raster := fun t => (t.length, 1, [])

/-- A font whose name tuple joins to `"bX"`, rasterizing with a different
geometry than `fontA`. -/
def fontB : FontM where
  name := ["bX"]
  raster := fun t => (2 * t.length, 3, [])

/-- A state sitting at an Out-phase boundary (`transition_start_time = 5`,
checked at `now = 6` with a one-second transition), refresh not due. -/
def stateOutB : LoopState :=
  { state0 with
    transition_state := some "out"
    transition_start_time := 5
    last_update_time := 6 }

/-- An idle state with a marquee in mid-animation, one tick past the display
duration (`now = 11`), refresh not due. -/
def stateMidMarquee : LoopState :=
  { state0 with
    pixelsUp := 5
    hasElevated := 1
    scroll_x := 3
    last_update_time := 11 }

/-- The Out-boundary state with a marquee in mid-animation. -/
def stateOutBMarquee : LoopState :=
  { stateOutB with
    pixelsUp := 5
    hasElevated := 1
    scroll_x := 3 }

/-! ## Frame lemmas: which fields each step leaves untouched -/

@[simp]
theorem acceptTip_transition_state (t : String) (s : LoopState) :
    (acceptTip t s).transition_state = s.transition_state := by
  unfold acceptTip; split <;> rfl

@[simp]
theorem acceptTip_transition_start_time (t : String) (s : LoopState) :
    (acceptTip t s).transition_start_time = s.transition_start_time := by
  unfold acceptTip; split <;> rfl

@[simp]
theorem acceptTip_is_showing_forecast (t : String) (s : LoopState) :
    (acceptTip t s).is_showing_forecast = s.is_showing_forecast := by
  unfold acceptTip; split <;> rfl

@[simp]
theorem acceptTip_last_view_switch_time (t : String) (s : LoopState) :
    (acceptTip t s).last_view_switch_time = s.last_view_switch_time := by
  unfold acceptTip; split <;> rfl

@[simp]
theorem acceptTip_scroll_off_event_time (t : String) (s : LoopState) :
    (acceptTip t s).scroll_off_event_time = s.scroll_off_event_time := by
  unfold acceptTip; split <;> rfl

@[simp]
theorem acceptTip_last_update_time (t : String) (s : LoopState) :
    (acceptTip t s).last_update_time = s.last_update_time := by
  unfold acceptTip; split <;> rfl

@[simp]
theorem acceptTip_weather_data_cache (t : String) (s : LoopState) :
    (acceptTip t s).weather_data_cache = s.weather_data_cache := by
  unfold acceptTip; split <;> rfl

@[simp]
theorem acceptTip_forecast_data_cache (t : String) (s : LoopState) :
    (acceptTip t s).forecast_data_cache = s.forecast_data_cache := by
  unfold acceptTip; split <;> rfl

@[simp]
theorem weatherSuccess_transition_state (inp : TickInput) (w : String)
    (s : LoopState) :
    (weatherSuccess inp w s).transition_state = s.transition_state := by
  unfold weatherSuccess acceptTip; dsimp only; split <;> rfl

@[simp]
theorem weatherSuccess_transition_start_time (inp : TickInput) (w : String)
    (s : LoopState) :
    (weatherSuccess inp w s).transition_start_time = s.transition_start_time := by
  unfold weatherSuccess acceptTip; dsimp only; split <;> rfl

@[simp]
theorem weatherSuccess_is_showing_forecast (inp : TickInput) (w : String)
    (s : LoopState) :
    (weatherSuccess inp w s).is_showing_forecast = s.is_showing_forecast := by
  unfold weatherSuccess acceptTip; dsimp only; split <;> rfl

@[simp]
theorem weatherSuccess_last_view_switch_time (inp : TickInput) (w : String)
    (s : LoopState) :
    (weatherSuccess inp w s).last_view_switch_time = s.last_view_switch_time := by
  unfold weatherSuccess acceptTip; dsimp only; split <;> rfl

@[simp]
theorem weatherSuccess_scroll_off_event_time (inp : TickInput) (w : String)
    (s : LoopState) :
    (weatherSuccess inp w s).scroll_off_event_time = s.scroll_off_event_time := by
  unfold weatherSuccess acceptTip; dsimp only; split <;> rfl

@[simp]
theorem weatherSuccess_last_update_time (inp : TickInput) (w : String)
    (s : LoopState) :
    (weatherSuccess inp w s).last_update_time = inp.now := by
  unfold weatherSuccess acceptTip; dsimp only; split <;> rfl

@[simp]
theorem scrollOffStamp_transition_state (inp : TickInput) (s : LoopState) :
    (scrollOffStamp inp s).transition_state = s.transition_state := by
  unfold scrollOffStamp; split <;> rfl

@[simp]
theorem scrollOffStamp_transition_start_time (inp : TickInput) (s : LoopState) :
    (scrollOffStamp inp s).transition_start_time = s.transition_start_time := by
  unfold scrollOffStamp; split <;> rfl

@[simp]
theorem scrollOffStamp_is_showing_forecast (inp : TickInput) (s : LoopState) :
    (scrollOffStamp inp s).is_showing_forecast = s.is_showing_forecast := by
  unfold scrollOffStamp; split <;> rfl

@[simp]
theorem scrollOffStamp_pixelsUp (inp : TickInput) (s : LoopState) :
    (scrollOffStamp inp s).pixelsUp = s.pixelsUp := by
  unfold scrollOffStamp; split <;> rfl

@[simp]
theorem scrollOffStamp_hasElevated (inp : TickInput) (s : LoopState) :
    (scrollOffStamp inp s).hasElevated = s.hasElevated := by
  unfold scrollOffStamp; split <;> rfl

@[simp]
theorem scrollOffStamp_scroll_x (inp : TickInput) (s : LoopState) :
    (scrollOffStamp inp s).scroll_x = s.scroll_x := by
  unfold scrollOffStamp; split <;> rfl

@[simp]
theorem scrollOffStamp_scroll_completion_event_fired (inp : TickInput)
    (s : LoopState) :
    (scrollOffStamp inp s).scroll_completion_event_fired =
      s.scroll_completion_event_fired := by
  unfold scrollOffStamp; split <;> rfl

@[simp]
theorem scrollOffStamp_animation_pause_timer (inp : TickInput) (s : LoopState) :
    (scrollOffStamp inp s).animation_pause_timer = s.animation_pause_timer := by
  unfold scrollOffStamp; split <;> rfl

@[simp]
theorem scrollOffStamp_last_update_time (inp : TickInput) (s : LoopState) :
    (scrollOffStamp inp s).last_update_time = s.last_update_time := by
  unfold scrollOffStamp; split <;> rfl

@[simp]
theorem scrollOffStamp_weather_data_cache (inp : TickInput) (s : LoopState) :
    (scrollOffStamp inp s).weather_data_cache = s.weather_data_cache := by
  unfold scrollOffStamp; split <;> rfl

@[simp]
theorem scrollOffStamp_forecast_data_cache (inp : TickInput) (s : LoopState) :
    (scrollOffStamp inp s).forecast_data_cache = s.forecast_data_cache := by
  unfold scrollOffStamp; split <;> rfl

@[simp]
theorem scrollOffStamp_ai_tip_cache (inp : TickInput) (s : LoopState) :
    (scrollOffStamp inp s).ai_tip_cache = s.ai_tip_cache := by
  unfold scrollOffStamp; split <;> rfl

@[simp]
theorem marqueeRise_transition_state (th : ℕ) (inp : TickInput)
    (s : LoopState) :
    (marqueeRise th inp s).transition_state = s.transition_state := by
  unfold marqueeRise; split <;> [rfl; (split <;> rfl)]

@[simp]
theorem marqueeRise_transition_start_time (th : ℕ) (inp : TickInput)
    (s : LoopState) :
    (marqueeRise th inp s).transition_start_time = s.transition_start_time := by
  unfold marqueeRise; split <;> [rfl; (split <;> rfl)]

@[simp]
theorem marqueeRise_is_showing_forecast (th : ℕ) (inp : TickInput)
    (s : LoopState) :
    (marqueeRise th inp s).is_showing_forecast = s.is_showing_forecast := by
  unfold marqueeRise; split <;> [rfl; (split <;> rfl)]

@[simp]
theorem marqueeRise_last_view_switch_time (th : ℕ) (inp : TickInput)
    (s : LoopState) :
    (marqueeRise th inp s).last_view_switch_time = s.last_view_switch_time := by
  unfold marqueeRise; split <;> [rfl; (split <;> rfl)]

@[simp]
theorem marqueeRise_scroll_off_event_time (th : ℕ) (inp : TickInput)
    (s : LoopState) :
    (marqueeRise th inp s).scroll_off_event_time = s.scroll_off_event_time := by
  unfold marqueeRise; split <;> [rfl; (split <;> rfl)]

@[simp]
theorem marqueeRise_last_update_time (th : ℕ) (inp : TickInput)
    (s : LoopState) :
    (marqueeRise th inp s).last_update_time = s.last_update_time := by
  unfold marqueeRise; split <;> [rfl; (split <;> rfl)]

@[simp]
theorem marqueeRise_weather_data_cache (th : ℕ) (inp : TickInput)
    (s : LoopState) :
    (marqueeRise th inp s).weather_data_cache = s.weather_data_cache := by
  unfold marqueeRise; split <;> [rfl; (split <;> rfl)]

@[simp]
theorem marqueeRise_forecast_data_cache (th : ℕ) (inp : TickInput)
    (s : LoopState) :
    (marqueeRise th inp s).forecast_data_cache = s.forecast_data_cache := by
  unfold marqueeRise; split <;> [rfl; (split <;> rfl)]

@[simp]
theorem marqueeRise_ai_tip_cache (th : ℕ) (inp : TickInput) (s : LoopState) :
    (marqueeRise th inp s).ai_tip_cache = s.ai_tip_cache := by
  unfold marqueeRise; split <;> [rfl; (split <;> rfl)]

@[simp]
theorem marqueeScroll_transition_state (cfg : Config) (tw : ℕ)
    (inp : TickInput) (s : LoopState) :
    (marqueeScroll cfg tw inp s).transition_state = s.transition_state := by
  unfold marqueeScroll; split <;> [(dsimp only; split <;> rfl); rfl]

@[simp]
theorem marqueeScroll_transition_start_time (cfg : Config) (tw : ℕ)
    (inp : TickInput) (s : LoopState) :
    (marqueeScroll cfg tw inp s).transition_start_time =
      s.transition_start_time := by
  unfold marqueeScroll; split <;> [(dsimp only; split <;> rfl); rfl]

@[simp]
theorem marqueeScroll_is_showing_forecast (cfg : Config) (tw : ℕ)
    (inp : TickInput) (s : LoopState) :
    (marqueeScroll cfg tw inp s).is_showing_forecast =
      s.is_showing_forecast := by
  unfold marqueeScroll; split <;> [(dsimp only; split <;> rfl); rfl]

@[simp]
theorem marqueeScroll_last_view_switch_time (cfg : Config) (tw : ℕ)
    (inp : TickInput) (s : LoopState) :
    (marqueeScroll cfg tw inp s).last_view_switch_time =
      s.last_view_switch_time := by
  unfold marqueeScroll; split <;> [(dsimp only; split <;> rfl); rfl]

@[simp]
theorem marqueeScroll_scroll_off_event_time (cfg : Config) (tw : ℕ)
    (inp : TickInput) (s : LoopState) :
    (marqueeScroll cfg tw inp s).scroll_off_event_time =
      s.scroll_off_event_time := by
  unfold marqueeScroll; split <;> [(dsimp only; split <;> rfl); rfl]

@[simp]
theorem marqueeScroll_last_update_time (cfg : Config) (tw : ℕ)
    (inp : TickInput) (s : LoopState) :
    (marqueeScroll cfg tw inp s).last_update_time = s.last_update_time := by
  unfold marqueeScroll; split <;> [(dsimp only; split <;> rfl); rfl]

@[simp]
theorem marqueeScroll_weather_data_cache (cfg : Config) (tw : ℕ)
    (inp : TickInput) (s : LoopState) :
    (marqueeScroll cfg tw inp s).weather_data_cache = s.weather_data_cache := by
  unfold marqueeScroll; split <;> [(dsimp only; split <;> rfl); rfl]

@[simp]
theorem marqueeScroll_forecast_data_cache (cfg : Config) (tw : ℕ)
    (inp : TickInput) (s : LoopState) :
    (marqueeScroll cfg tw inp s).forecast_data_cache =
      s.forecast_data_cache := by
  unfold marqueeScroll; split <;> [(dsimp only; split <;> rfl); rfl]

@[simp]
theorem marqueeScroll_ai_tip_cache (cfg : Config) (tw : ℕ) (inp : TickInput)
    (s : LoopState) :
    (marqueeScroll cfg tw inp s).ai_tip_cache = s.ai_tip_cache := by
  unfold marqueeScroll; split <;> [(dsimp only; split <;> rfl); rfl]

@[simp]
theorem marqueeAdvance_transition_state (cfg : Config) (inp : TickInput)
    (s : LoopState) :
    (marqueeAdvance cfg inp s).transition_state = s.transition_state := by
  unfold marqueeAdvance; split <;> simp

@[simp]
theorem marqueeAdvance_transition_start_time (cfg : Config) (inp : TickInput)
    (s : LoopState) :
    (marqueeAdvance cfg inp s).transition_start_time =
      s.transition_start_time := by
  unfold marqueeAdvance; split <;> simp

@[simp]
theorem marqueeAdvance_is_showing_forecast (cfg : Config) (inp : TickInput)
    (s : LoopState) :
    (marqueeAdvance cfg inp s).is_showing_forecast = s.is_showing_forecast := by
  unfold marqueeAdvance; split <;> simp

@[simp]
theorem marqueeAdvance_last_update_time (cfg : Config) (inp : TickInput)
    (s : LoopState) :
    (marqueeAdvance cfg inp s).last_update_time = s.last_update_time := by
  unfold marqueeAdvance; split <;> simp

@[simp]
theorem marqueeAdvance_weather_data_cache (cfg : Config) (inp : TickInput)
    (s : LoopState) :
    (marqueeAdvance cfg inp s).weather_data_cache = s.weather_data_cache := by
  unfold marqueeAdvance; split <;> simp

@[simp]
theorem marqueeAdvance_forecast_data_cache (cfg : Config) (inp : TickInput)
    (s : LoopState) :
    (marqueeAdvance cfg inp s).forecast_data_cache =
      s.forecast_data_cache := by
  unfold marqueeAdvance; split <;> simp

@[simp]
theorem marqueeAdvance_ai_tip_cache (cfg : Config) (inp : TickInput)
    (s : LoopState) :
    (marqueeAdvance cfg inp s).ai_tip_cache = s.ai_tip_cache := by
  unfold marqueeAdvance; split <;> simp

theorem refreshStep_not_due (cfg : Config) (inp : TickInput) (s : LoopState)
    (h : ¬ inp.now - s.last_update_time > cfg.UPDATE_INTERVAL_SECONDS) :
    refreshStep cfg inp s = (s, 0) := by
  simp [refreshStep, h]

theorem refreshStep_due_calls (cfg : Config) (inp : TickInput) (s : LoopState)
    (h : inp.now - s.last_update_time > cfg.UPDATE_INTERVAL_SECONDS) :
    (refreshStep cfg inp s).2 =
      2 + (if inp.weather_fetch.isSome then 1 else 0) := by
  simp [refreshStep, h]

@[simp]
theorem refreshStep_transition_state (cfg : Config) (inp : TickInput)
    (s : LoopState) :
    (refreshStep cfg inp s).1.transition_state = s.transition_state := by
  unfold refreshStep
  split
  · dsimp only
    cases inp.weather_fetch <;> cases inp.forecast_fetch <;> simp
  · rfl

@[simp]
theorem refreshStep_transition_start_time (cfg : Config) (inp : TickInput)
    (s : LoopState) :
    (refreshStep cfg inp s).1.transition_start_time =
      s.transition_start_time := by
  unfold refreshStep
  split
  · dsimp only
    cases inp.weather_fetch <;> cases inp.forecast_fetch <;> simp
  · rfl

@[simp]
theorem refreshStep_is_showing_forecast (cfg : Config) (inp : TickInput)
    (s : LoopState) :
    (refreshStep cfg inp s).1.is_showing_forecast = s.is_showing_forecast := by
  unfold refreshStep
  split
  · dsimp only
    cases inp.weather_fetch <;> cases inp.forecast_fetch <;> simp
  · rfl

@[simp]
theorem refreshStep_last_view_switch_time (cfg : Config) (inp : TickInput)
    (s : LoopState) :
    (refreshStep cfg inp s).1.last_view_switch_time =
      s.last_view_switch_time := by
  unfold refreshStep
  split
  · dsimp only
    cases inp.weather_fetch <;> cases inp.forecast_fetch <;> simp
  · rfl

@[simp]
theorem refreshStep_scroll_off_event_time (cfg : Config) (inp : TickInput)
    (s : LoopState) :
    (refreshStep cfg inp s).1.scroll_off_event_time =
      s.scroll_off_event_time := by
  unfold refreshStep
  split
  · dsimp only
    cases inp.weather_fetch <;> cases inp.forecast_fetch <;> simp
  · rfl

/-- Everything `triggerStep` can do: either it does not enter a transition —
no move is recorded and every field except possibly `scroll_off_event_time`
is kept — or it enters the Out phase: the single move `Idle → Out` is
recorded, the pre-state was Idle, and the post-state is in the Out phase
with `transition_start_time = now`, all marquee counters and the refresh
fields untouched. -/
theorem triggerStep_spec (cfg : Config) (inp : TickInput) (s : LoopState) :
    ((triggerStep cfg inp s).2 = [] ∧
     (triggerStep cfg inp s).1.transition_state = s.transition_state ∧
     (triggerStep cfg inp s).1.transition_start_time =
       s.transition_start_time ∧
     (triggerStep cfg inp s).1.is_showing_forecast = s.is_showing_forecast ∧
     (triggerStep cfg inp s).1.pixelsUp = s.pixelsUp ∧
     (triggerStep cfg inp s).1.hasElevated = s.hasElevated ∧
     (triggerStep cfg inp s).1.scroll_x = s.scroll_x ∧
     (triggerStep cfg inp s).1.scroll_completion_event_fired =
       s.scroll_completion_event_fired ∧
     (triggerStep cfg inp s).1.animation_pause_timer =
       s.animation_pause_timer ∧
     sameRefreshFields (triggerStep cfg inp s).1 s) ∨
    ((triggerStep cfg inp s).2 = [(none, some "out")] ∧
     s.transition_state = none ∧
     (triggerStep cfg inp s).1.transition_state = some "out" ∧
     (triggerStep cfg inp s).1.transition_start_time = inp.now ∧
     (triggerStep cfg inp s).1.is_showing_forecast = s.is_showing_forecast ∧
     (triggerStep cfg inp s).1.pixelsUp = s.pixelsUp ∧
     (triggerStep cfg inp s).1.hasElevated = s.hasElevated ∧
     (triggerStep cfg inp s).1.scroll_x = s.scroll_x ∧
     (triggerStep cfg inp s).1.animation_pause_timer =
       s.animation_pause_timer ∧
     sameRefreshFields (triggerStep cfg inp s).1 s) := by
  unfold triggerStep sameRefreshFields
  split
  · rename_i hc
    exact Or.inr ⟨rfl, hc.2.2, rfl, rfl, rfl, rfl, rfl, rfl, rfl, rfl, rfl,
      rfl, rfl⟩
  · split
    · dsimp only
      split
      · rename_i hc
        refine Or.inr ⟨rfl, ?_, ?_, ?_, ?_, ?_, ?_, ?_, ?_, ?_, ?_, ?_, ?_⟩
          <;> simp_all
      · refine Or.inl ⟨rfl, ?_, ?_, ?_, ?_, ?_, ?_, ?_, ?_, ?_, ?_, ?_, ?_⟩
          <;> simp
    · exact Or.inl ⟨rfl, rfl, rfl, rfl, rfl, rfl, rfl, rfl, rfl, rfl, rfl,
        rfl, rfl⟩

theorem transitionStep_idle (cfg : Config) (inp : TickInput) (s : LoopState)
    (h : s.transition_state = none) :
    transitionStep cfg inp s =
      (marqueeAdvance cfg inp s, [], some (viewOf s.is_showing_forecast)) := by
  unfold transitionStep
  split <;> simp_all

theorem transitionStep_frame (cfg : Config) (inp : TickInput) (s : LoopState)
    (ph : String) (h : s.transition_state = some ph)
    (hlt : inp.now - s.transition_start_time <
      cfg.TRANSITION_DURATION_SECONDS) :
    transitionStep cfg inp s =
      (s, [], some (viewOf s.is_showing_forecast)) := by
  unfold transitionStep
  split
  · rename_i ph' h'
    rw [if_neg (not_le.mpr hlt)]
  · simp_all

theorem transitionStep_out_boundary (cfg : Config) (inp : TickInput)
    (s : LoopState) (h : s.transition_state = some "out")
    (hge : cfg.TRANSITION_DURATION_SECONDS ≤
      inp.now - s.transition_start_time) :
    transitionStep cfg inp s =
      ({ s with
          is_showing_forecast := !s.is_showing_forecast
          pixelsUp := 0
          hasElevated := 0
          scroll_x := 0
          scroll_completion_event_fired := false
          transition_state := nextPhase cfg
          transition_start_time := inp.now },
        [(some "out", nextPhase cfg)], none) := by
  unfold transitionStep
  split
  · rename_i ph' h'
    rw [h] at h'
    cases h'
    rw [if_pos hge, if_pos rfl]
  · simp_all

theorem transitionStep_in_boundary (cfg : Config) (inp : TickInput)
    (s : LoopState) (ph : String) (h : s.transition_state = some ph)
    (hph : ph ≠ "out")
    (hge : cfg.TRANSITION_DURATION_SECONDS ≤
      inp.now - s.transition_start_time) :
    transitionStep cfg inp s =
      ({ s with transition_state := none }, [(some ph, none)], none) := by
  unfold transitionStep
  split
  · rename_i ph' h'
    rw [h] at h'
    cases h'
    rw [if_pos hge, if_neg hph]
  · simp_all

@[simp]
theorem tick_networkCalls (cfg : Config) (inp : TickInput) (s : LoopState) :
    (tick cfg inp s).networkCalls = (refreshStep cfg inp s).2 := rfl

@[simp]
theorem tick_state (cfg : Config) (inp : TickInput) (s : LoopState) :
    (tick cfg inp s).state =
      (transitionStep cfg inp
        (triggerStep cfg inp (refreshStep cfg inp s).1).1).1 := rfl

@[simp]
theorem tick_moves (cfg : Config) (inp : TickInput) (s : LoopState) :
    (tick cfg inp s).moves =
      (triggerStep cfg inp (refreshStep cfg inp s).1).2 ++
        (transitionStep cfg inp
          (triggerStep cfg inp (refreshStep cfg inp s).1).1).2.1 := rfl

@[simp]
theorem tick_bgDrawn (cfg : Config) (inp : TickInput) (s : LoopState) :
    (tick cfg inp s).bgDrawn =
      (transitionStep cfg inp
        (triggerStep cfg inp (refreshStep cfg inp s).1).1).2.2 := rfl

/-- Exhaustive case analysis of one tick's effect on the transition
machinery: steady frame; Out entry (first frame, or immediate boundary when
the transition duration is non-positive); progress frame of a running phase;
Out boundary; boundary of a non-Out phase. -/
theorem tick_cases (cfg : Config) (inp : TickInput) (s : LoopState) :
    (s.transition_state = none ∧
     (tick cfg inp s).moves = [] ∧
     (tick cfg inp s).bgDrawn = some (viewOf s.is_showing_forecast) ∧
     (tick cfg inp s).state.is_showing_forecast = s.is_showing_forecast ∧
     (tick cfg inp s).state.transition_state = none) ∨
    (s.transition_state = none ∧ 0 < cfg.TRANSITION_DURATION_SECONDS ∧
     (tick cfg inp s).moves = [(none, some "out")] ∧
     (tick cfg inp s).bgDrawn = some (viewOf s.is_showing_forecast) ∧
     (tick cfg inp s).state.is_showing_forecast = s.is_showing_forecast ∧
     (tick cfg inp s).state.transition_state = some "out" ∧
     (tick cfg inp s).state.transition_start_time = inp.now) ∨
    (s.transition_state = none ∧ cfg.TRANSITION_DURATION_SECONDS ≤ 0 ∧
     (tick cfg inp s).moves =
       [(none, some "out"), (some "out", nextPhase cfg)] ∧
     (tick cfg inp s).bgDrawn = none ∧
     (tick cfg inp s).state.is_showing_forecast = !s.is_showing_forecast ∧
     (tick cfg inp s).state.transition_state = nextPhase cfg ∧
     (tick cfg inp s).state.transition_start_time = inp.now ∧
     (tick cfg inp s).state.pixelsUp = 0 ∧
     (tick cfg inp s).state.hasElevated = 0 ∧
     (tick cfg inp s).state.scroll_x = 0 ∧
     (tick cfg inp s).state.scroll_completion_event_fired = false) ∨
    (∃ ph, s.transition_state = some ph ∧
     inp.now - s.transition_start_time < cfg.TRANSITION_DURATION_SECONDS ∧
     (tick cfg inp s).moves = [] ∧
     (tick cfg inp s).bgDrawn = some (viewOf s.is_showing_forecast) ∧
     (tick cfg inp s).state.is_showing_forecast = s.is_showing_forecast ∧
     (tick cfg inp s).state.transition_state = some ph ∧
     (tick cfg inp s).state.transition_start_time = s.transition_start_time) ∨
    (s.transition_state = some "out" ∧
     cfg.TRANSITION_DURATION_SECONDS ≤ inp.now - s.transition_start_time ∧
     (tick cfg inp s).moves = [(some "out", nextPhase cfg)] ∧
     (tick cfg inp s).bgDrawn = none ∧
     (tick cfg inp s).state.is_showing_forecast = !s.is_showing_forecast ∧
     (tick cfg inp s).state.transition_state = nextPhase cfg ∧
     (tick cfg inp s).state.transition_start_time = inp.now ∧
     (tick cfg inp s).state.pixelsUp = 0 ∧
     (tick cfg inp s).state.hasElevated = 0 ∧
     (tick cfg inp s).state.scroll_x = 0 ∧
     (tick cfg inp s).state.scroll_completion_event_fired = false) ∨
    (∃ ph, s.transition_state = some ph ∧ ph ≠ "out" ∧
     cfg.TRANSITION_DURATION_SECONDS ≤ inp.now - s.transition_start_time ∧
     (tick cfg inp s).moves = [(some ph, none)] ∧
     (tick cfg inp s).bgDrawn = none ∧
     (tick cfg inp s).state.is_showing_forecast = s.is_showing_forecast ∧
     (tick cfg inp s).state.transition_state = none) := by
  have hrts := refreshStep_transition_state cfg inp s
  have hrtst := refreshStep_transition_start_time cfg inp s
  have hrisf := refreshStep_is_showing_forecast cfg inp s
  rcases triggerStep_spec cfg inp (refreshStep cfg inp s).1 with
    ⟨hm, hts, htst, hisf, -, -, -, -, -, -⟩ |
    ⟨hm, hts0, hts, htst, hisf, -, -, -, -, -⟩
  · have hts' := hts.trans hrts
    have htst' := htst.trans hrtst
    have hisf' := hisf.trans hrisf
    rcases hsts : s.transition_state with _ | ph
    · have h1 : (triggerStep cfg inp
          (refreshStep cfg inp s).1).1.transition_state = none := by
        rw [hts', hsts]
      have h2 := transitionStep_idle cfg inp
        (triggerStep cfg inp (refreshStep cfg inp s).1).1 h1
      refine Or.inl ⟨rfl, ?_, ?_, ?_, ?_⟩
      · rw [tick_moves, hm, h2]; rfl
      · rw [tick_bgDrawn, h2]; dsimp only; rw [hisf']
      · rw [tick_state, h2]; dsimp only
        rw [marqueeAdvance_is_showing_forecast, hisf']
      · rw [tick_state, h2]; dsimp only
        rw [marqueeAdvance_transition_state, h1]
    · by_cases hb : cfg.TRANSITION_DURATION_SECONDS ≤
          inp.now - s.transition_start_time
      · by_cases hph : ph = "out"
        · subst hph
          have h1 : (triggerStep cfg inp
              (refreshStep cfg inp s).1).1.transition_state = some "out" := by
            rw [hts', hsts]
          have hb' : cfg.TRANSITION_DURATION_SECONDS ≤
              inp.now - (triggerStep cfg inp
                (refreshStep cfg inp s).1).1.transition_start_time := by
            rw [htst']; exact hb
          have h2 := transitionStep_out_boundary cfg inp
            (triggerStep cfg inp (refreshStep cfg inp s).1).1 h1 hb'
          refine Or.inr (Or.inr (Or.inr (Or.inr (Or.inl
            ⟨rfl, hb, ?_, ?_, ?_, ?_, ?_, ?_, ?_, ?_, ?_⟩))))
          · rw [tick_moves, hm, h2]; rfl
          · rw [tick_bgDrawn, h2]
          · rw [tick_state, h2]; dsimp only; rw [hisf']
          · rw [tick_state, h2]
          · rw [tick_state, h2]
          · rw [tick_state, h2]
          · rw [tick_state, h2]
          · rw [tick_state, h2]
          · rw [tick_state, h2]
        · have h1 : (triggerStep cfg inp
              (refreshStep cfg inp s).1).1.transition_state = some ph := by
            rw [hts', hsts]
          have hb' : cfg.TRANSITION_DURATION_SECONDS ≤
              inp.now - (triggerStep cfg inp
                (refreshStep cfg inp s).1).1.transition_start_time := by
            rw [htst']; exact hb
          have h2 := transitionStep_in_boundary cfg inp
            (triggerStep cfg inp (refreshStep cfg inp s).1).1 ph h1 hph hb'
          refine Or.inr (Or.inr (Or.inr (Or.inr (Or.inr
            ⟨ph, rfl, hph, hb, ?_, ?_, ?_, ?_⟩))))
          · rw [tick_moves, hm, h2]; rfl
          · rw [tick_bgDrawn, h2]
          · rw [tick_state, h2]; dsimp only; rw [hisf']
          · rw [tick_state, h2]
      · have h1 : (triggerStep cfg inp
            (refreshStep cfg inp s).1).1.transition_state = some ph := by
          rw [hts', hsts]
        have hlt : inp.now - (triggerStep cfg inp
            (refreshStep cfg inp s).1).1.transition_start_time <
            cfg.TRANSITION_DURATION_SECONDS := by
          rw [htst']; exact not_le.mp hb
        have h2 := transitionStep_frame cfg inp
          (triggerStep cfg inp (refreshStep cfg inp s).1).1 ph h1 hlt
        refine Or.inr (Or.inr (Or.inr (Or.inl
          ⟨ph, rfl, not_le.mp hb, ?_, ?_, ?_, ?_, ?_⟩)))
        · rw [tick_moves, hm, h2]; rfl
        · rw [tick_bgDrawn, h2]; dsimp only; rw [hisf']
        · rw [tick_state, h2, hisf']
        · rw [tick_state, h2, h1]
        · rw [tick_state, h2, htst']
  · have hts0' : s.transition_state = none := by rw [← hrts]; exact hts0
    have hisf' := hisf.trans hrisf
    by_cases hb : cfg.TRANSITION_DURATION_SECONDS ≤ 0
    · have hb' : cfg.TRANSITION_DURATION_SECONDS ≤
          inp.now - (triggerStep cfg inp
            (refreshStep cfg inp s).1).1.transition_start_time := by
        rw [htst, sub_self]; exact hb
      have h2 := transitionStep_out_boundary cfg inp
        (triggerStep cfg inp (refreshStep cfg inp s).1).1 hts hb'
      refine Or.inr (Or.inr (Or.inl
        ⟨hts0', hb, ?_, ?_, ?_, ?_, ?_, ?_, ?_, ?_, ?_⟩))
      · rw [tick_moves, hm, h2]; rfl
      · rw [tick_bgDrawn, h2]
      · rw [tick_state, h2]; dsimp only; rw [hisf']
      · rw [tick_state, h2]
      · rw [tick_state, h2]
      · rw [tick_state, h2]
      · rw [tick_state, h2]
      · rw [tick_state, h2]
      · rw [tick_state, h2]
    · have hlt : inp.now - (triggerStep cfg inp
          (refreshStep cfg inp s).1).1.transition_start_time <
          cfg.TRANSITION_DURATION_SECONDS := by
        rw [htst, sub_self]; exact not_le.mp hb
      have h2 := transitionStep_frame cfg inp
        (triggerStep cfg inp (refreshStep cfg inp s).1).1 "out" hts hlt
      refine Or.inr (Or.inl
        ⟨hts0', not_le.mp hb, ?_, ?_, ?_, ?_, ?_⟩)
      · rw [tick_moves, hm, h2]; rfl
      · rw [tick_bgDrawn, h2]; dsimp only; rw [hisf']
      · rw [tick_state, h2, hisf']
      · rw [tick_state, h2, hts]
      · rw [tick_state, h2, htst]

theorem sameRefreshFields_trans {a b c : LoopState}
    (h1 : sameRefreshFields a b) (h2 : sameRefreshFields b c) :
    sameRefreshFields a c :=
  ⟨h1.1.trans h2.1, h1.2.1.trans h2.2.1, h1.2.2.1.trans h2.2.2.1,
    h1.2.2.2.trans h2.2.2.2⟩

theorem transitionStep_refreshFields (cfg : Config) (inp : TickInput)
    (s : LoopState) : sameRefreshFields (transitionStep cfg inp s).1 s := by
  unfold transitionStep sameRefreshFields
  split
  · dsimp only
    split
    · split
      · exact ⟨rfl, rfl, rfl, rfl⟩
      · exact ⟨rfl, rfl, rfl, rfl⟩
    · exact ⟨rfl, rfl, rfl, rfl⟩
  · simp

theorem tipAccepted_iff (cur t : String) :
    tipAccepted cur t = true ↔
      (t ≠ "" ∧ t ≠ cur ∧ strContains t "unavailable" = false) := by
  unfold tipAccepted
  simp [Bool.and_eq_true, Bool.not_eq_true', and_assoc]

@[simp]
theorem weatherSuccess_ai_tip_cache (inp : TickInput) (w : String)
    (s : LoopState) :
    (weatherSuccess inp w s).ai_tip_cache =
      if tipAccepted s.ai_tip_cache inp.tip_fetch then inp.tip_fetch
      else s.ai_tip_cache := by
  unfold weatherSuccess acceptTip
  dsimp only
  split <;> simp_all

@[simp]
theorem weatherSuccess_pixelsUp (inp : TickInput) (w : String)
    (s : LoopState) :
    (weatherSuccess inp w s).pixelsUp =
      if tipAccepted s.ai_tip_cache inp.tip_fetch then 0 else s.pixelsUp := by
  unfold weatherSuccess acceptTip
  dsimp only
  split <;> simp_all

@[simp]
theorem weatherSuccess_hasElevated (inp : TickInput) (w : String)
    (s : LoopState) :
    (weatherSuccess inp w s).hasElevated =
      if tipAccepted s.ai_tip_cache inp.tip_fetch then 0
      else s.hasElevated := by
  unfold weatherSuccess acceptTip
  dsimp only
  split <;> simp_all

@[simp]
theorem weatherSuccess_scroll_x (inp : TickInput) (w : String)
    (s : LoopState) :
    (weatherSuccess inp w s).scroll_x =
      if tipAccepted s.ai_tip_cache inp.tip_fetch then 0 else s.scroll_x := by
  unfold weatherSuccess acceptTip
  dsimp only
  split <;> simp_all

@[simp]
theorem weatherSuccess_scroll_completion_event_fired (inp : TickInput)
    (w : String) (s : LoopState) :
    (weatherSuccess inp w s).scroll_completion_event_fired =
      if tipAccepted s.ai_tip_cache inp.tip_fetch then false
      else s.scroll_completion_event_fired := by
  unfold weatherSuccess acceptTip
  dsimp only
  split <;> simp_all

theorem refreshStep_ai_tip_cache (cfg : Config) (inp : TickInput)
    (s : LoopState) :
    (refreshStep cfg inp s).1.ai_tip_cache =
      if inp.now - s.last_update_time > cfg.UPDATE_INTERVAL_SECONDS ∧
          inp.weather_fetch.isSome = true ∧
          tipAccepted s.ai_tip_cache inp.tip_fetch = true
      then inp.tip_fetch else s.ai_tip_cache := by
  unfold refreshStep
  split
  · rename_i hdue
    dsimp only
    cases hw : inp.weather_fetch <;> cases hf : inp.forecast_fetch <;>
      simp [hdue] <;> try (split <;> simp_all)
  · rename_i hnd
    simp [hnd]

theorem refreshStep_pixelsUp (cfg : Config) (inp : TickInput)
    (s : LoopState) :
    (refreshStep cfg inp s).1.pixelsUp =
      if inp.now - s.last_update_time > cfg.UPDATE_INTERVAL_SECONDS ∧
          inp.weather_fetch.isSome = true ∧
          tipAccepted s.ai_tip_cache inp.tip_fetch = true
      then 0 else s.pixelsUp := by
  unfold refreshStep
  split
  · rename_i hdue
    dsimp only
    cases hw : inp.weather_fetch <;> cases hf : inp.forecast_fetch <;>
      simp [hdue] <;> try (split <;> simp_all)
  · rename_i hnd
    simp [hnd]

theorem refreshStep_hasElevated (cfg : Config) (inp : TickInput)
    (s : LoopState) :
    (refreshStep cfg inp s).1.hasElevated =
      if inp.now - s.last_update_time > cfg.UPDATE_INTERVAL_SECONDS ∧
          inp.weather_fetch.isSome = true ∧
          tipAccepted s.ai_tip_cache inp.tip_fetch = true
      then 0 else s.hasElevated := by
  unfold refreshStep
  split
  · rename_i hdue
    dsimp only
    cases hw : inp.weather_fetch <;> cases hf : inp.forecast_fetch <;>
      simp [hdue] <;> try (split <;> simp_all)
  · rename_i hnd
    simp [hnd]

theorem refreshStep_scroll_x (cfg : Config) (inp : TickInput)
    (s : LoopState) :
    (refreshStep cfg inp s).1.scroll_x =
      if inp.now - s.last_update_time > cfg.UPDATE_INTERVAL_SECONDS ∧
          inp.weather_fetch.isSome = true ∧
          tipAccepted s.ai_tip_cache inp.tip_fetch = true
      then 0 else s.scroll_x := by
  unfold refreshStep
  split
  · rename_i hdue
    dsimp only
    cases hw : inp.weather_fetch <;> cases hf : inp.forecast_fetch <;>
      simp [hdue] <;> try (split <;> simp_all)
  · rename_i hnd
    simp [hnd]

theorem refreshStep_scroll_completion_event_fired (cfg : Config)
    (inp : TickInput) (s : LoopState) :
    (refreshStep cfg inp s).1.scroll_completion_event_fired =
      if inp.now - s.last_update_time > cfg.UPDATE_INTERVAL_SECONDS ∧
          inp.weather_fetch.isSome = true ∧
          tipAccepted s.ai_tip_cache inp.tip_fetch = true
      then false else s.scroll_completion_event_fired := by
  unfold refreshStep
  split
  · rename_i hdue
    dsimp only
    cases hw : inp.weather_fetch <;> cases hf : inp.forecast_fetch <;>
      simp [hdue] <;> try (split <;> simp_all)
  · rename_i hnd
    simp [hnd]

/-! ## List helpers and generic frame facts -/

theorem find_first_split {α : Type} (p : α → Bool) :
    ∀ (l : List α) (a : α), l.find? p = some a →
      p a = true ∧ ∃ pre post, l = pre ++ a :: post ∧
        ∀ c ∈ pre, p c = false := by
  intro l
  induction l with
  | nil => intro a h; simp at h
  | cons x xs ih =>
    intro a h
    by_cases hx : p x = true
    · rw [List.find?_cons_of_pos _ hx] at h
      cases h
      exact ⟨hx, [], xs, rfl, by simp⟩
    · have hx' : p x = false := by simpa using hx
      rw [List.find?_cons_of_neg _ hx] at h
      obtain ⟨hpa, pre, post, rfl, hpre⟩ := ih a h
      refine ⟨hpa, x :: pre, post, rfl, ?_⟩
      intro c hc
      rcases List.mem_cons.mp hc with rfl | hc
      · exact hx'
      · exact hpre c hc

theorem getLast?_mem_of_eq {α : Type} :
    ∀ (l : List α) (a : α), l.getLast? = some a → a ∈ l := by
  intro l
  induction l with
  | nil => intro a h; simp at h
  | cons x xs ih =>
    intro a h
    cases xs with
    | nil =>
      simp only [List.getLast?_singleton, Option.some.injEq] at h
      simp [h]
    | cons y ys =>
      rw [List.getLast?_cons_cons] at h
      exact List.mem_cons_of_mem x (ih a h)

theorem getLast?_of_ne_nil {α : Type} :
    ∀ (l : List α), l ≠ [] → ∃ a, l.getLast? = some a := by
  intro l
  induction l with
  | nil => intro h; exact absurd rfl h
  | cons x xs ih =>
    intro _
    cases xs with
    | nil => exact ⟨x, rfl⟩
    | cons y ys =>
      obtain ⟨a, ha⟩ := ih (by simp)
      exact ⟨a, by rw [List.getLast?_cons_cons]; exact ha⟩

theorem tick_frame_facts (cfg : Config) (inp : TickInput) (s : LoopState)
    (ph : String) (h : s.transition_state = some ph)
    (hlt : inp.now - s.transition_start_time <
      cfg.TRANSITION_DURATION_SECONDS) :
    (tick cfg inp s).bgDrawn = some (viewOf s.is_showing_forecast) ∧
    (tick cfg inp s).state.is_showing_forecast = s.is_showing_forecast ∧
    (tick cfg inp s).state.transition_state = some ph ∧
    (tick cfg inp s).state.transition_start_time =
      s.transition_start_time := by
  rcases tick_cases cfg inp s with
    ⟨h0, -, -, -, -⟩ | ⟨h0, -, -, -, -, -, -⟩ |
    ⟨h0, -, -, -, -, -, -, -, -, -, -⟩ |
    ⟨ph', h0, hlt', hm, hbg, hisf, hts, htst⟩ |
    ⟨h0, hge, -, -, -, -, -, -, -, -, -⟩ | ⟨ph', h0, hne, hge, -, -, -, -⟩
  · exact Option.noConfusion (h.symm.trans h0)
  · exact Option.noConfusion (h.symm.trans h0)
  · exact Option.noConfusion (h.symm.trans h0)
  · have : ph' = ph := by
      have := h.symm.trans h0
      exact (Option.some.injEq _ _ ▸ this).symm
    subst this
    exact ⟨hbg, hisf, hts, htst⟩
  · exact absurd hge (not_le.mpr hlt)
  · exact absurd hge (not_le.mpr hlt)

/-! ## Claim theorems -/

/-- C5: for every ordered candidate list and width budget, the layout fitter
returns the first candidate whose rendered width `w` satisfies
`(totalWidth - w) - reservedLeftWidth >= extraReservedWidth`, and if no
candidate satisfies it, returns the last candidate; the result is always one
of the candidates. -/
theorem layout_fitter_first_fit (widthOf : String → ℕ)
    (deviceWidth maxClockWidth icon_space_needed : ℤ)
    (date_formats : List String) (h : date_formats ≠ []) :
    ∃ r, get_display_date_str widthOf deviceWidth maxClockWidth
        icon_space_needed date_formats = some r ∧
      r ∈ date_formats ∧
      ((date_fits widthOf deviceWidth maxClockWidth icon_space_needed r =
          true ∧
        ∃ pre post, date_formats = pre ++ r :: post ∧
          ∀ c ∈ pre, date_fits widthOf deviceWidth maxClockWidth
            icon_space_needed c = false) ∨
       ((∀ c ∈ date_formats, date_fits widthOf deviceWidth maxClockWidth
          icon_space_needed c = false) ∧
        date_formats.getLast? = some r)) := by
  obtain ⟨fb, hfb⟩ := getLast?_of_ne_nil date_formats h
  unfold get_display_date_str
  rw [hfb]
  cases hf : date_formats.find?
      (date_fits widthOf deviceWidth maxClockWidth icon_space_needed) with
  | some c =>
    obtain ⟨hpc, pre, post, heq, hpre⟩ := find_first_split _ date_formats c hf
    exact ⟨c, rfl, by rw [heq]; simp, Or.inl ⟨hpc, pre, post, heq, hpre⟩⟩
  | none =>
    refine ⟨fb, rfl, getLast?_mem_of_eq _ _ hfb, Or.inr ⟨?_, rfl⟩⟩
    intro c hc
    have hnc := List.find?_eq_none.mp hf c hc
    simpa using hnc

/-- Witness for C5 at the spec's scenario shape: three candidates ordered
longest to shortest, only the third fits. -/
theorem layout_fitter_first_fit_witness :
    ∃ r, get_display_date_str (fun s => s.length) 30 5 0
        ["Monday, 1st January 2024 xxxxx", "Monday, 1st January 2024x",
          "Mon, 1st Jan"] = some r ∧
      r ∈ ["Monday, 1st January 2024 xxxxx", "Monday, 1st January 2024x",
          "Mon, 1st Jan"] ∧
      ((date_fits (fun s => s.length) 30 5 0 r = true ∧
        ∃ pre post, ["Monday, 1st January 2024 xxxxx",
            "Monday, 1st January 2024x", "Mon, 1st Jan"] =
            pre ++ r :: post ∧
          ∀ c ∈ pre, date_fits (fun s => s.length) 30 5 0 c = false) ∨
       ((∀ c ∈ ["Monday, 1st January 2024 xxxxx",
          "Monday, 1st January 2024x", "Mon, 1st Jan"],
          date_fits (fun s => s.length) 30 5 0 c = false) ∧
        (["Monday, 1st January 2024 xxxxx", "Monday, 1st January 2024x",
          "Mon, 1st Jan"] : List String).getLast? = some r)) :=
  layout_fitter_first_fit (fun s => s.length) 30 5 0 _ (by decide)

/-- C7: a fetched tip becomes the new `cached_tip` only if it is non-empty,
differs from the current cached tip, and does not contain `"unavailable"`;
on acceptance the marquee state is reset to zero; in every other case
`cached_tip` is unchanged; a result containing the sentinel never overwrites
the cached tip. -/
theorem tip_retention (cfg : Config) (inp : TickInput) (s : LoopState) :
    ((refreshStep cfg inp s).1.ai_tip_cache ≠ s.ai_tip_cache →
      (inp.tip_fetch ≠ "" ∧ inp.tip_fetch ≠ s.ai_tip_cache ∧
        strContains inp.tip_fetch "unavailable" = false) ∧
      (refreshStep cfg inp s).1.ai_tip_cache = inp.tip_fetch ∧
      (refreshStep cfg inp s).1.pixelsUp = 0 ∧
      (refreshStep cfg inp s).1.hasElevated = 0 ∧
      (refreshStep cfg inp s).1.scroll_x = 0 ∧
      (refreshStep cfg inp s).1.scroll_completion_event_fired = false) ∧
    (inp.now - s.last_update_time > cfg.UPDATE_INTERVAL_SECONDS →
      inp.weather_fetch.isSome = true →
      inp.tip_fetch ≠ "" → inp.tip_fetch ≠ s.ai_tip_cache →
      strContains inp.tip_fetch "unavailable" = false →
      (refreshStep cfg inp s).1.ai_tip_cache = inp.tip_fetch ∧
      (refreshStep cfg inp s).1.pixelsUp = 0 ∧
      (refreshStep cfg inp s).1.hasElevated = 0 ∧
      (refreshStep cfg inp s).1.scroll_x = 0 ∧
      (refreshStep cfg inp s).1.scroll_completion_event_fired = false) ∧
    (strContains inp.tip_fetch "unavailable" = true →
      (refreshStep cfg inp s).1.ai_tip_cache = s.ai_tip_cache) := by
  refine ⟨?_, ?_, ?_⟩
  · intro hch
    rw [refreshStep_ai_tip_cache] at hch
    by_cases hcond : inp.now - s.last_update_time >
        cfg.UPDATE_INTERVAL_SECONDS ∧ inp.weather_fetch.isSome = true ∧
        tipAccepted s.ai_tip_cache inp.tip_fetch = true
    · have hacc := (tipAccepted_iff s.ai_tip_cache inp.tip_fetch).mp
        hcond.2.2
      refine ⟨hacc, ?_, ?_, ?_, ?_, ?_⟩
      · rw [refreshStep_ai_tip_cache, if_pos hcond]
      · rw [refreshStep_pixelsUp, if_pos hcond]
      · rw [refreshStep_hasElevated, if_pos hcond]
      · rw [refreshStep_scroll_x, if_pos hcond]
      · rw [refreshStep_scroll_completion_event_fired, if_pos hcond]
    · rw [if_neg hcond] at hch
      exact absurd rfl hch
  · intro h1 h2 h3 h4 h5
    have hcond : inp.now - s.last_update_time >
        cfg.UPDATE_INTERVAL_SECONDS ∧ inp.weather_fetch.isSome = true ∧
        tipAccepted s.ai_tip_cache inp.tip_fetch = true :=
      ⟨h1, h2, (tipAccepted_iff s.ai_tip_cache inp.tip_fetch).mpr
        ⟨h3, h4, h5⟩⟩
    refine ⟨?_, ?_, ?_, ?_, ?_⟩
    · rw [refreshStep_ai_tip_cache, if_pos hcond]
    · rw [refreshStep_pixelsUp, if_pos hcond]
    · rw [refreshStep_hasElevated, if_pos hcond]
    · rw [refreshStep_scroll_x, if_pos hcond]
    · rw [refreshStep_scroll_completion_event_fired, if_pos hcond]
  · intro hsent
    rw [refreshStep_ai_tip_cache]
    rw [if_neg]
    intro hcond
    have hacc := (tipAccepted_iff s.ai_tip_cache inp.tip_fetch).mp hcond.2.2
    rw [hacc.2.2] at hsent
    exact Bool.noConfusion hsent

/-- Witness for C7: an accepted tip at a due tick replaces the cached tip
and zeroes the marquee; a sentinel result leaves it unchanged. -/
theorem tip_retention_witness :
    ((refreshStep cfg0 ⟨1801, some "w", some "f", "new tip"⟩
        state0).1.ai_tip_cache = "new tip" ∧
      (refreshStep cfg0 ⟨1801, some "w", some "f", "new tip"⟩
        state0).1.pixelsUp = 0 ∧
      (refreshStep cfg0 ⟨1801, some "w", some "f", "new tip"⟩
        state0).1.hasElevated = 0 ∧
      (refreshStep cfg0 ⟨1801, some "w", some "f", "new tip"⟩
        state0).1.scroll_x = 0 ∧
      (refreshStep cfg0 ⟨1801, some "w", some "f", "new tip"⟩
        state0).1.scroll_completion_event_fired = false) ∧
    (refreshStep cfg0 ⟨1801, some "w", some "f",
        "Weather tip currently unavailable."⟩ state0).1.ai_tip_cache =
      state0.ai_tip_cache :=
  ⟨(tip_retention cfg0 ⟨1801, some "w", some "f", "new tip"⟩ state0).2.1
      (by decide) (by decide) (by decide) (by decide) (by decide),
    (tip_retention cfg0 ⟨1801, some "w", some "f",
        "Weather tip currently unavailable."⟩ state0).2.2 (by decide)⟩

/-- C8 counterexample: with the credential unset, the guard branch renders
the static message, sleeps 1800 seconds, and then *returns from `main`* (the
process exits) — it does not idle indefinitely as the claim states. -/
theorem startup_guard_counterexample :
    mainStartup "key_not_set" =
      .haltSequence [.renderStatic "API Key Not Set!", .sleepSeconds 1800,
        .returnFromMain] ∧
    MainAction.returnFromMain ∈
      [MainAction.renderStatic "API Key Not Set!",
        MainAction.sleepSeconds 1800, MainAction.returnFromMain] := by
  decide

/-- C8 (amended): when the mandatory credential is missing (unset, which
`loadConfig` surfaces as `'key_not_set'`, or empty), the program does not
crash: it renders the static "API Key Not Set!" frame, sleeps 1800 seconds
once, and then returns from `main`; the refresh path is never entered. -/
theorem startup_guard_halt (apiKey : String)
    (h : apiKey = "key_not_set" ∨ apiKey = "") :
    mainStartup apiKey =
      .haltSequence [.renderStatic "API Key Not Set!", .sleepSeconds 1800,
        .returnFromMain] ∧
    ∀ acts, mainStartup apiKey = .haltSequence acts →
      MainAction.refreshFetch ∉ acts := by
  constructor
  · unfold mainStartup
    rw [if_pos h]
  · intro acts hacts
    unfold mainStartup at hacts
    rw [if_pos h] at hacts
    cases hacts
    decide

/-- Witness for C8's amended theorem at the unset credential. -/
theorem startup_guard_halt_witness :
    mainStartup "key_not_set" =
      .haltSequence [.renderStatic "API Key Not Set!", .sleepSeconds 1800,
        .returnFromMain] ∧
    ∀ acts, mainStartup "key_not_set" = .haltSequence acts →
      MainAction.refreshFetch ∉ acts :=
  startup_guard_halt "key_not_set" (Or.inl rfl)

/-- C9 counterexample: the cache key is the bare concatenation
`text + ''.join(font.getname())`, so the distinct inputs `("ab", fontA)` and
`("a", fontB)` share the key `"abX"`; after the first call, the second call
returns the first pair's cached geometry instead of its own direct
rasterization. -/
theorem raster_cache_collision_counterexample :
    rasterKey "ab" fontA = rasterKey "a" fontB ∧
    ("ab", fontA.name) ≠ ("a", fontB.name) ∧
    (cachedBitmapText ((cachedBitmapText [] "ab" fontA).2) "a" fontB).1 =
      fontA.raster "ab" ∧
    (cachedBitmapText ((cachedBitmapText [] "ab" fontA).2) "a" fontB).1 ≠
      fontB.raster "a" := by
  decide

/-- C9 (amended): `cachedBitmapText` returns exactly the direct
rasterization of `(text, font)` — identically on the miss and on every
subsequent hit — provided the concatenated key `text ++ ''.join(fontname)`
is not already bound to a different pair's entry, and it keeps the cache
consistent for that key; distinct `(text, font)` pairs whose concatenated
keys collide share one entry and can return each other's geometry. -/
theorem cachedBitmapText_ok (cache : RasterCache) (text : String)
    (font : FontM)
    (h : ∀ e, cacheLookup cache (rasterKey text font) = some e →
      e = font.raster text) :
    (cachedBitmapText cache text font).1 = font.raster text ∧
    ∀ e, cacheLookup (cachedBitmapText cache text font).2
        (rasterKey text font) = some e → e = font.raster text := by
  unfold cachedBitmapText
  dsimp only
  cases hc : cacheLookup cache (rasterKey text font) with
  | some pre =>
    dsimp only
    exact ⟨h pre hc, h⟩
  | none =>
    dsimp only
    constructor
    · rfl
    · intro e he
      simp only [cacheLookup] at he
      simp at he
      exact he.symm

/-- Witness for C9's amended theorem: on an empty cache the returned triple
is the direct rasterization, and the cache stays consistent. -/
theorem cachedBitmapText_ok_witness :
    (cachedBitmapText [] "ab" fontA).1 = fontA.raster "ab" ∧
    ∀ e, cacheLookup (cachedBitmapText [] "ab" fontA).2
        (rasterKey "ab" fontA) = some e → e = fontA.raster "ab" :=
  cachedBitmapText_ok [] "ab" fontA
    (fun e he => by simp [cacheLookup] at he)

/-- C10: any operating-hours string that does not parse as two
'-'-separated integers makes `is_within_operating_hours` return `True` for
every current hour — the display is treated as always active. -/
theorem operating_hours_malformed_default_on (s : String)
    (h : parseOperatingHours s = none) (nowHour : ℤ) :
    is_within_operating_hours s nowHour = true := by
  unfold is_within_operating_hours
  rw [h]

/-- Witness for C10 at a malformed string. -/
theorem operating_hours_malformed_default_on_witness :
    parseOperatingHours "always" = none ∧
    is_within_operating_hours "always" 12 = true :=
  ⟨by decide, operating_hours_malformed_default_on "always" (by decide) 12⟩

/-- C1 (amended): a tick performs network fetches exactly when
`now - last_update_time > updateIntervalSeconds` (strictly); when the
refresh is not due, no network call is made and the `RefreshState` fields
(`last_update_time`, cached weather, cached forecast, cached tip) are left
unchanged.  In particular, with the interval 1800 and
`last_success_timestamp = 0`, a tick at `now = 1800` does *not* refresh; the
first refreshing tick is at `now = 1801`. -/
theorem refresh_scheduler_gate (cfg : Config) (inp : TickInput)
    (s : LoopState) :
    ((tick cfg inp s).networkCalls = 0 ↔
      ¬ (inp.now - s.last_update_time > cfg.UPDATE_INTERVAL_SECONDS)) ∧
    (¬ (inp.now - s.last_update_time > cfg.UPDATE_INTERVAL_SECONDS) →
      sameRefreshFields (tick cfg inp s).state s) := by
  constructor
  · constructor
    · intro h0 hdue
      rw [tick_networkCalls, refreshStep_due_calls cfg inp s hdue] at h0
      split at h0 <;> omega
    · intro hnd
      rw [tick_networkCalls, refreshStep_not_due cfg inp s hnd]
  · intro hnd
    have h0 := refreshStep_not_due cfg inp s hnd
    rw [tick_state, h0]
    dsimp only
    have hx := transitionStep_refreshFields cfg inp
      (triggerStep cfg inp s).1
    rcases triggerStep_spec cfg inp s with
      ⟨-, -, -, -, -, -, -, -, -, hrf⟩ | ⟨-, -, -, -, -, -, -, -, -, hrf⟩ <;>
      exact sameRefreshFields_trans hx hrf

/-- Witness for C1's amended theorem: at `now = 1799` (and likewise any tick
not past the interval) the tick makes no network call and the refresh state
is untouched. -/
theorem refresh_scheduler_gate_witness :
    (tick cfg0 ⟨1799, some "w", some "f", "t2"⟩
      { state0 with last_view_switch_time := 1799 }).networkCalls = 0 ∧
    sameRefreshFields
      (tick cfg0 ⟨1799, some "w", some "f", "t2"⟩
        { state0 with last_view_switch_time := 1799 }).state
      { state0 with last_view_switch_time := 1799 } :=
  ⟨(refresh_scheduler_gate cfg0 ⟨1799, some "w", some "f", "t2"⟩
      { state0 with last_view_switch_time := 1799 }).1.mpr (by decide),
    (refresh_scheduler_gate cfg0 ⟨1799, some "w", some "f", "t2"⟩
      { state0 with last_view_switch_time := 1799 }).2 (by decide)⟩

/-- C1 counterexample: the claim's scenario `updateIntervalSeconds = 1800`,
`last_success_timestamp = 0`, `now = 1800` does *not* trigger a refresh —
the staleness test is strict (`>`), so `1800 - 0 > 1800` is false and the
tick performs no network fetch (the claim says it performs one). -/
theorem refresh_at_exact_interval_counterexample :
    (tick cfg0 ⟨1800, some "w", some "f", "t2"⟩
      { state0 with last_view_switch_time := 1800 }).networkCalls = 0 ∧
    (tick cfg0 ⟨1801, some "w", some "f", "t2"⟩
      { state0 with last_view_switch_time := 1801 }).networkCalls = 3 := by
  decide

theorem nextPhase_cases (cfg : Config) :
    nextPhase cfg = some "in" ∨ nextPhase cfg = none := by
  unfold nextPhase
  split
  · exact Or.inl rfl
  · exact Or.inr rfl

theorem nextPhase_some_in_iff (cfg : Config) :
    nextPhase cfg = some "in" ↔
      (cfg.TRANSITION_EFFECT = "wipe" ∨ cfg.TRANSITION_EFFECT = "blink") := by
  unfold nextPhase
  split
  · rename_i h
    simp [h]
  · rename_i h
    simp [h]

/-- C2: starting from any well-formed transition state, every recorded
`transition_state` assignment in a tick is one of Idle→Out, Out→In,
Out→Idle, In→Idle; the Out→In move is taken exactly when the configured
effect is `'wipe'` or `'blink'`; and well-formedness is preserved, so along
every tick sequence from Idle no other transition is ever reachable. -/
theorem transition_state_machine (cfg : Config) (inp : TickInput)
    (s : LoopState)
    (hwf : s.transition_state = none ∨ s.transition_state = some "out" ∨
      s.transition_state = some "in") :
    (∀ m ∈ (tick cfg inp s).moves,
      m = ((none : Option String), (some "out" : Option String)) ∨
      m = (some "out", some "in") ∨
      m = (some "out", none) ∨ m = (some "in", none)) ∧
    (∀ x : Option String, (some "out", x) ∈ (tick cfg inp s).moves →
      (x = some "in" ↔
        (cfg.TRANSITION_EFFECT = "wipe" ∨
          cfg.TRANSITION_EFFECT = "blink"))) ∧
    ((tick cfg inp s).state.transition_state = none ∨
     (tick cfg inp s).state.transition_state = some "out" ∨
     (tick cfg inp s).state.transition_state = some "in") := by
  have hnp := nextPhase_cases cfg
  have hnpi := nextPhase_some_in_iff cfg
  rcases tick_cases cfg inp s with
    ⟨h0, hm, hbg, hisf, hts⟩ |
    ⟨h0, hdur, hm, hbg, hisf, hts, htst⟩ |
    ⟨h0, hdur, hm, hbg, hisf, hts, htst, -, -, -, -⟩ |
    ⟨ph, h0, hlt, hm, hbg, hisf, hts, htst⟩ |
    ⟨h0, hge, hm, hbg, hisf, hts, htst, -, -, -, -⟩ |
    ⟨ph, h0, hne, hge, hm, hbg, hisf, hts⟩
  · refine ⟨?_, ?_, Or.inl hts⟩
    · intro m hmem
      rw [hm] at hmem
      exact absurd hmem (List.not_mem_nil m)
    · intro x hx
      rw [hm] at hx
      exact absurd hx (List.not_mem_nil _)
  · refine ⟨?_, ?_, Or.inr (Or.inl hts)⟩
    · intro m hmem
      rw [hm] at hmem
      rw [List.mem_singleton] at hmem
      exact Or.inl hmem
    · intro x hx
      rw [hm] at hx
      rw [List.mem_singleton, Prod.mk.injEq] at hx
      exact absurd hx.1 (by simp)
  · refine ⟨?_, ?_, ?_⟩
    · intro m hmem
      rw [hm] at hmem
      rcases List.mem_cons.mp hmem with rfl | hmem
      · exact Or.inl rfl
      · rw [List.mem_singleton] at hmem
        subst hmem
        rcases hnp with hnp | hnp <;> rw [hnp]
        · exact Or.inr (Or.inl rfl)
        · exact Or.inr (Or.inr (Or.inl rfl))
    · intro x hx
      rw [hm] at hx
      rcases List.mem_cons.mp hx with hx | hx
      · rw [Prod.mk.injEq] at hx
        exact absurd hx.1 (by simp)
      · rw [List.mem_singleton, Prod.mk.injEq] at hx
        rw [hx.2]
        exact hnpi
    · rw [hts]
      rcases hnp with hnp | hnp <;> rw [hnp]
      · exact Or.inr (Or.inr rfl)
      · exact Or.inl rfl
  · refine ⟨?_, ?_, ?_⟩
    · intro m hmem
      rw [hm] at hmem
      exact absurd hmem (List.not_mem_nil m)
    · intro x hx
      rw [hm] at hx
      exact absurd hx (List.not_mem_nil _)
    · rcases hwf with hwf | hwf | hwf
      · exact absurd (hwf.symm.trans h0) (by simp)
      · rw [hts]
        injection hwf.symm.trans h0 with h2
        rw [← h2]
        exact Or.inr (Or.inl rfl)
      · rw [hts]
        injection hwf.symm.trans h0 with h2
        rw [← h2]
        exact Or.inr (Or.inr rfl)
  · refine ⟨?_, ?_, ?_⟩
    · intro m hmem
      rw [hm] at hmem
      rw [List.mem_singleton] at hmem
      subst hmem
      rcases hnp with hnp | hnp <;> rw [hnp]
      · exact Or.inr (Or.inl rfl)
      · exact Or.inr (Or.inr (Or.inl rfl))
    · intro x hx
      rw [hm] at hx
      rw [List.mem_singleton, Prod.mk.injEq] at hx
      rw [hx.2]
      exact hnpi
    · rw [hts]
      rcases hnp with hnp | hnp <;> rw [hnp]
      · exact Or.inr (Or.inr rfl)
      · exact Or.inl rfl
  · have hin : ph = "in" := by
      rcases hwf with hwf | hwf | hwf
      · exact absurd (hwf.symm.trans h0) (by simp)
      · injection hwf.symm.trans h0 with h2
        exact absurd h2.symm hne
      · injection hwf.symm.trans h0 with h2
        exact h2.symm
    subst hin
    refine ⟨?_, ?_, Or.inl hts⟩
    · intro m hmem
      rw [hm] at hmem
      rw [List.mem_singleton] at hmem
      subst hmem
      exact Or.inr (Or.inr (Or.inr rfl))
    · intro x hx
      rw [hm] at hx
      rw [List.mem_singleton, Prod.mk.injEq] at hx
      injection hx.1 with h2
      exact absurd h2 (by decide)

/-- Witness for C2 at a concrete tick (an Out entry from Idle under the
default configuration). -/
theorem transition_state_machine_witness :
    (∀ m ∈ (tick cfg0 ⟨11, none, none, ""⟩
        { state0 with last_update_time := 11 }).moves,
      m = ((none : Option String), (some "out" : Option String)) ∨
      m = (some "out", some "in") ∨
      m = (some "out", none) ∨ m = (some "in", none)) ∧
    (∀ x : Option String, (some "out", x) ∈ (tick cfg0 ⟨11, none, none, ""⟩
        { state0 with last_update_time := 11 }).moves →
      (x = some "in" ↔
        (cfg0.TRANSITION_EFFECT = "wipe" ∨
          cfg0.TRANSITION_EFFECT = "blink"))) ∧
    ((tick cfg0 ⟨11, none, none, ""⟩
        { state0 with last_update_time := 11 }).state.transition_state =
        none ∨
     (tick cfg0 ⟨11, none, none, ""⟩
        { state0 with last_update_time := 11 }).state.transition_state =
        some "out" ∨
     (tick cfg0 ⟨11, none, none, ""⟩
        { state0 with last_update_time := 11 }).state.transition_state =
        some "in") :=
  transition_state_machine cfg0 ⟨11, none, none, ""⟩
    { state0 with last_update_time := 11 } (Or.inl rfl)

/-- C3: `is_showing_forecast` changes in a tick exactly when that tick
completes an Out phase (records an `Out → _` move); when it changes it
flips; for a tick starting in the Out phase the flip happens exactly when
`elapsed >= transitionDuration`; it never changes in a tick starting in the
In phase; and it never changes in any tick that draws a frame (Out or In
progress, or steady state). -/
theorem view_selector_flip (cfg : Config) (inp : TickInput) (s : LoopState) :
    ((tick cfg inp s).state.is_showing_forecast ≠ s.is_showing_forecast ↔
      ∃ x : Option String, (some "out", x) ∈ (tick cfg inp s).moves) ∧
    ((tick cfg inp s).state.is_showing_forecast ≠ s.is_showing_forecast →
      (tick cfg inp s).state.is_showing_forecast = !s.is_showing_forecast) ∧
    (s.transition_state = some "out" →
      ((tick cfg inp s).state.is_showing_forecast ≠ s.is_showing_forecast ↔
        cfg.TRANSITION_DURATION_SECONDS ≤
          inp.now - s.transition_start_time)) ∧
    (s.transition_state = some "in" →
      (tick cfg inp s).state.is_showing_forecast = s.is_showing_forecast) ∧
    ((tick cfg inp s).bgDrawn.isSome = true →
      (tick cfg inp s).state.is_showing_forecast = s.is_showing_forecast) := by
  rcases tick_cases cfg inp s with
    ⟨h0, hm, hbg, hisf, hts⟩ |
    ⟨h0, hdur, hm, hbg, hisf, hts, htst⟩ |
    ⟨h0, hdur, hm, hbg, hisf, hts, htst, -, -, -, -⟩ |
    ⟨ph, h0, hlt, hm, hbg, hisf, hts, htst⟩ |
    ⟨h0, hge, hm, hbg, hisf, hts, htst, -, -, -, -⟩ |
    ⟨ph, h0, hne, hge, hm, hbg, hisf, hts⟩
  · refine ⟨?_, ?_, ?_, ?_, ?_⟩
    · constructor
      · intro hch
        exact absurd hisf hch
      · rintro ⟨x, hx⟩
        rw [hm] at hx
        exact absurd hx (List.not_mem_nil _)
    · intro hch
      exact absurd hisf hch
    · intro hts0
      exact absurd (hts0.symm.trans h0) (by simp)
    · intro _
      exact hisf
    · intro _
      exact hisf
  · refine ⟨?_, ?_, ?_, ?_, ?_⟩
    · constructor
      · intro hch
        exact absurd hisf hch
      · rintro ⟨x, hx⟩
        rw [hm] at hx
        rw [List.mem_singleton, Prod.mk.injEq] at hx
        exact absurd hx.1 (by simp)
    · intro hch
      exact absurd hisf hch
    · intro hts0
      exact absurd (hts0.symm.trans h0) (by simp)
    · intro hts0
      exact absurd (hts0.symm.trans h0) (by simp)
    · intro _
      exact hisf
  · refine ⟨?_, ?_, ?_, ?_, ?_⟩
    · refine iff_of_true ?_ ⟨nextPhase cfg, by rw [hm]; simp⟩
      rw [hisf]
      cases s.is_showing_forecast <;> simp
    · intro _
      exact hisf
    · intro hts0
      exact absurd (hts0.symm.trans h0) (by simp)
    · intro hts0
      exact absurd (hts0.symm.trans h0) (by simp)
    · intro hb
      rw [hbg] at hb
      exact Bool.noConfusion hb
  · refine ⟨?_, ?_, ?_, ?_, ?_⟩
    · constructor
      · intro hch
        exact absurd hisf hch
      · rintro ⟨x, hx⟩
        rw [hm] at hx
        exact absurd hx (List.not_mem_nil _)
    · intro hch
      exact absurd hisf hch
    · intro _
      exact iff_of_false (fun hch => absurd hisf hch) (not_le.mpr hlt)
    · intro _
      exact hisf
    · intro _
      exact hisf
  · refine ⟨?_, ?_, ?_, ?_, ?_⟩
    · refine iff_of_true ?_ ⟨nextPhase cfg, by rw [hm]; simp⟩
      rw [hisf]
      cases s.is_showing_forecast <;> simp
    · intro _
      exact hisf
    · intro _
      refine iff_of_true ?_ hge
      rw [hisf]
      cases s.is_showing_forecast <;> simp
    · intro hts0
      injection (h0.symm.trans hts0) with h2
      exact absurd h2 (by decide)
    · intro hb
      rw [hbg] at hb
      exact Bool.noConfusion hb
  · refine ⟨?_, ?_, ?_, ?_, ?_⟩
    · constructor
      · intro hch
        exact absurd hisf hch
      · rintro ⟨x, hx⟩
        rw [hm] at hx
        rw [List.mem_singleton, Prod.mk.injEq] at hx
        injection hx.1 with h2
        exact absurd h2.symm hne
    · intro hch
      exact absurd hisf hch
    · intro hts0
      injection (hts0.symm.trans h0) with h2
      exact absurd h2.symm hne
    · intro _
      exact hisf
    · intro _
      exact hisf

/-- Witness for C3 at a concrete Out-boundary tick: the selector flips. -/
theorem view_selector_flip_witness :
    ((tick cfg0 ⟨6, none, none, ""⟩ stateOutB).state.is_showing_forecast ≠
        stateOutB.is_showing_forecast ↔
      cfg0.TRANSITION_DURATION_SECONDS ≤
        (6 : ℤ) - stateOutB.transition_start_time) :=
  (view_selector_flip cfg0 ⟨6, none, none, ""⟩ stateOutB).2.2.1 rfl

/-- C4: during every Out-progress frame the background drawn is that of the
view selected *before* the flip (the selector is unchanged through Out
frames), during every In-progress frame it is that of the selector's
current — i.e. post-flip — view, and at the Out boundary the selector flips
with no frame drawn, so every In frame of that cycle draws the new view's
background: both phases evaluating
`forecast_bg if is_showing_forecast else current_weather_bg` yields the
pre-switch background during Out and the post-switch background during
In. -/
theorem transition_background_selection (cfg : Config) (inp : TickInput)
    (s : LoopState) :
    (s.transition_state = some "out" →
      inp.now - s.transition_start_time < cfg.TRANSITION_DURATION_SECONDS →
      (tick cfg inp s).bgDrawn = some (viewOf s.is_showing_forecast) ∧
      (tick cfg inp s).state.is_showing_forecast = s.is_showing_forecast) ∧
    (s.transition_state = some "in" →
      inp.now - s.transition_start_time < cfg.TRANSITION_DURATION_SECONDS →
      (tick cfg inp s).bgDrawn = some (viewOf s.is_showing_forecast) ∧
      (tick cfg inp s).state.is_showing_forecast = s.is_showing_forecast) ∧
    (s.transition_state = some "out" →
      cfg.TRANSITION_DURATION_SECONDS ≤ inp.now - s.transition_start_time →
      (tick cfg inp s).bgDrawn = none ∧
      (tick cfg inp s).state.is_showing_forecast = !s.is_showing_forecast ∧
      (∀ inp2 : TickInput,
        (tick cfg inp s).state.transition_state = some "in" →
        inp2.now - (tick cfg inp s).state.transition_start_time <
          cfg.TRANSITION_DURATION_SECONDS →
        (tick cfg inp2 (tick cfg inp s).state).bgDrawn =
          some (viewOf (!s.is_showing_forecast)) ∧
        (tick cfg inp2 (tick cfg inp s).state).state.is_showing_forecast =
          !s.is_showing_forecast)) := by
  refine ⟨?_, ?_, ?_⟩
  · intro h hlt
    obtain ⟨hbg, hisf, -, -⟩ := tick_frame_facts cfg inp s "out" h hlt
    exact ⟨hbg, hisf⟩
  · intro h hlt
    obtain ⟨hbg, hisf, -, -⟩ := tick_frame_facts cfg inp s "in" h hlt
    exact ⟨hbg, hisf⟩
  · intro h hge
    rcases tick_cases cfg inp s with
      ⟨h0, hm, hbg, hisf, hts⟩ |
      ⟨h0, hdur, hm, hbg, hisf, hts, htst⟩ |
      ⟨h0, hdur, hm, hbg, hisf, hts, htst, -, -, -, -⟩ |
      ⟨ph, h0, hlt, hm, hbg, hisf, hts, htst⟩ |
      ⟨h0, hge2, hm, hbg, hisf, hts, htst, -, -, -, -⟩ |
      ⟨ph, h0, hne, hge2, hm, hbg, hisf, hts⟩
    · exact absurd (h.symm.trans h0) (by simp)
    · exact absurd (h.symm.trans h0) (by simp)
    · exact absurd (h.symm.trans h0) (by simp)
    · exact absurd hge (not_le.mpr hlt)
    · refine ⟨hbg, hisf, ?_⟩
      intro inp2 hts2 hlt2
      obtain ⟨hbg2, hisf2, -, -⟩ :=
        tick_frame_facts cfg inp2 (tick cfg inp s).state "in" hts2 hlt2
      constructor
      · rw [hbg2, hisf]
      · rw [hisf2, hisf]
    · have hout : ph = "out" := by
        injection h.symm.trans h0 with h2
        exact h2.symm
      exact absurd hout hne

/-- Witness for C4 at a concrete Out-boundary tick: no frame is drawn, the
selector flips, and any subsequent In-progress frame draws the post-switch
view's background. -/
theorem transition_background_selection_witness :
    (tick cfg0 ⟨6, none, none, ""⟩ stateOutB).bgDrawn = none ∧
    (tick cfg0 ⟨6, none, none, ""⟩ stateOutB).state.is_showing_forecast =
      !stateOutB.is_showing_forecast ∧
    (∀ inp2 : TickInput,
      (tick cfg0 ⟨6, none, none, ""⟩ stateOutB).state.transition_state =
        some "in" →
      inp2.now - (tick cfg0 ⟨6, none, none, ""⟩
        stateOutB).state.transition_start_time <
        cfg0.TRANSITION_DURATION_SECONDS →
      (tick cfg0 inp2
        (tick cfg0 ⟨6, none, none, ""⟩ stateOutB).state).bgDrawn =
        some (viewOf (!stateOutB.is_showing_forecast)) ∧
      (tick cfg0 inp2 (tick cfg0 ⟨6, none, none, ""⟩
        stateOutB).state).state.is_showing_forecast =
        !stateOutB.is_showing_forecast) :=
  (transition_background_selection cfg0 ⟨6, none, none, ""⟩ stateOutB).2.2
    rfl (by decide)

/-- C6 counterexample: with `displayDuration = 10` and `pixelsUp = 5`,
`hasElevated = 1`, `scroll_x = 3`, the tick at `now = 11` *enters* the Out
phase (the `Idle → Out` move is recorded) yet none of the marquee fields is
reset — the reset only happens when the Out phase completes. -/
theorem marquee_reset_at_out_entry_counterexample :
    (tick cfg0 ⟨11, none, none, ""⟩ stateMidMarquee).moves =
      [(none, some "out")] ∧
    (tick cfg0 ⟨11, none, none, ""⟩
      stateMidMarquee).state.transition_state = some "out" ∧
    (tick cfg0 ⟨11, none, none, ""⟩ stateMidMarquee).state.pixelsUp = 5 ∧
    (tick cfg0 ⟨11, none, none, ""⟩ stateMidMarquee).state.hasElevated = 1 ∧
    (tick cfg0 ⟨11, none, none, ""⟩ stateMidMarquee).state.scroll_x = 3 := by
  decide

/-- C6 (amended): the marquee fields (`pixelsUp`, `hasElevated`,
`scroll_x`, `scroll_completion_event_fired`) are reset to their zero/false
values at the tick where the Out phase *completes* (the Out→In or Out→Idle
boundary) — not at Out entry — and likewise inside the refresh step when a
new tip is accepted. -/
theorem marquee_reset_points (cfg : Config) (inp : TickInput)
    (s : LoopState) :
    (s.transition_state = some "out" →
      cfg.TRANSITION_DURATION_SECONDS ≤ inp.now - s.transition_start_time →
      (tick cfg inp s).state.pixelsUp = 0 ∧
      (tick cfg inp s).state.hasElevated = 0 ∧
      (tick cfg inp s).state.scroll_x = 0 ∧
      (tick cfg inp s).state.scroll_completion_event_fired = false) ∧
    (inp.now - s.last_update_time > cfg.UPDATE_INTERVAL_SECONDS →
      inp.weather_fetch.isSome = true →
      tipAccepted s.ai_tip_cache inp.tip_fetch = true →
      (refreshStep cfg inp s).1.pixelsUp = 0 ∧
      (refreshStep cfg inp s).1.hasElevated = 0 ∧
      (refreshStep cfg inp s).1.scroll_x = 0 ∧
      (refreshStep cfg inp s).1.scroll_completion_event_fired = false) := by
  constructor
  · intro h hge
    rcases tick_cases cfg inp s with
      ⟨h0, hm, hbg, hisf, hts⟩ |
      ⟨h0, hdur, hm, hbg, hisf, hts, htst⟩ |
      ⟨h0, hdur, hm, hbg, hisf, hts, htst, hp, he, hs, hscf⟩ |
      ⟨ph, h0, hlt, hm, hbg, hisf, hts, htst⟩ |
      ⟨h0, hge2, hm, hbg, hisf, hts, htst, hp, he, hs, hscf⟩ |
      ⟨ph, h0, hne, hge2, hm, hbg, hisf, hts⟩
    · exact absurd (h.symm.trans h0) (by simp)
    · exact absurd (h.symm.trans h0) (by simp)
    · exact absurd (h.symm.trans h0) (by simp)
    · exact absurd hge (not_le.mpr hlt)
    · exact ⟨hp, he, hs, hscf⟩
    · have hout : ph = "out" := by
        injection h.symm.trans h0 with h2
        exact h2.symm
      exact absurd hout hne
  · intro h1 h2 h3
    have hcond : inp.now - s.last_update_time >
        cfg.UPDATE_INTERVAL_SECONDS ∧ inp.weather_fetch.isSome = true ∧
        tipAccepted s.ai_tip_cache inp.tip_fetch = true := ⟨h1, h2, h3⟩
    refine ⟨?_, ?_, ?_, ?_⟩
    · rw [refreshStep_pixelsUp, if_pos hcond]
    · rw [refreshStep_hasElevated, if_pos hcond]
    · rw [refreshStep_scroll_x, if_pos hcond]
    · rw [refreshStep_scroll_completion_event_fired, if_pos hcond]

/-- Witness for C6's amended theorem at a concrete Out-boundary tick. -/
theorem marquee_reset_points_witness :
    (tick cfg0 ⟨6, none, none, ""⟩ stateOutBMarquee).state.pixelsUp = 0 ∧
    (tick cfg0 ⟨6, none, none, ""⟩ stateOutBMarquee).state.hasElevated = 0 ∧
    (tick cfg0 ⟨6, none, none, ""⟩ stateOutBMarquee).state.scroll_x = 0 ∧
    (tick cfg0 ⟨6, none, none, ""⟩
      stateOutBMarquee).state.scroll_completion_event_fired = false :=
  (marquee_reset_points cfg0 ⟨6, none, none, ""⟩ stateOutBMarquee).1
    rfl (by decide)

end WeatherDisplay
